import Mathlib

/-!
Verification of the Tenant Provisioning Orchestrator (provisioner/ app).

This file shallowly embeds the Python source under src/provisioner/ into
Lean 4 and settles the frozen claims C1..C10 about it.

Embedding conventions:
* Python/JSON values handled dynamically by the code are modelled by the
  inductive `PyVal` (None, str, bool, dict, other), with Python truthiness
  as `pyTruthy`.
* The Django model row `ProvisionRequest` becomes the structure `PR`;
  `obj.save()` / `refresh_from_db()` collapse to explicit state passing
  (single-writer per row, per the scheduler's one-job-per-id guarantee).
* Remote Dokploy calls are resolved by an environment (`Env`) mapping each
  call site to its outcome (`Except DokployError PyVal`); the calls a run
  issues are accumulated in an explicit trace.
* Machine integers do not overflow in any code path modelled here; counters
  are `Nat`.
-/

namespace Provisioner

/-- Python-ish dynamic value: the response shapes handled by
`extract_id_from_resp` and friends (None, strings, booleans, JSON objects,
anything else). Dicts are association lists with distinct keys. -/
inductive PyVal where
  | pynone
  | pystr (s : String)
  | pybool (b : Bool)
  | pydict (fields : List (String × PyVal))
  | pyother

/-- Python truthiness for `PyVal` (`if val:`). -/
def pyTruthy : PyVal → Bool
  | .pynone => false
  | .pystr s => !s.isEmpty
  | .pybool b => b
  | .pydict fs => !fs.isEmpty
  | .pyother => true

/-- `d.get(k)` on a Python dict: the stored value, or `None` when absent. -/
def dictGet (fs : List (String × PyVal)) (k : String) : PyVal :=
  match fs.lookup k with
  | some v => v
  | none => .pynone

/-- Drop matching characters from both ends of a character list
(the effect of Python's `str.strip`). -/
def dropAround (p : Char → Bool) (l : List Char) : List Char :=
  ((l.dropWhile p).reverse.dropWhile p).reverse

/-- Python `s.strip()` (whitespace from both ends). -/
def pyStripWs (s : String) : String :=
  String.mk (dropAround Char.isWhitespace s.toList)

/-- Python `s.strip(c)` for a single character `c`. -/
def pyStripChar (c : Char) (s : String) : String :=
  String.mk (dropAround (fun d => d == c) s.toList)

/-- The double-quote character. -/
def dquote : Char := Char.ofNat 34

/-- The single-quote character. -/
def squote : Char := Char.ofNat 39

/-- The space character. -/
def spaceChar : Char := Char.ofNat 32

/-- Python `" " in v`: does the string contain a space character? -/
def hasSpace (s : String) : Bool := s.toList.any (fun c => c == spaceChar)

/-- `priority_keys` from `extract_id_from_resp` (tasks.py:47-55). -/
def priority_keys : List String :=
  ["projectId", "applicationId", "appId", "id", "_id", "project_id", "application_id"]

/-- The `for key in priority_keys` loop of `extract_id_from_resp`
(tasks.py:57-60 and 64-67): first key whose value is a string with
non-blank content, returned stripped. -/
def probeKeysCode (fs : List (String × PyVal)) : List String → Option String
  | [] => none
  | k :: ks =>
    match dictGet fs k with
    | .pystr s => if !(pyStripWs s).isEmpty then some (pyStripWs s) else probeKeysCode fs ks
    | _ => probeKeysCode fs ks

/-- The last-resort `for v in resp.values()` loop of `extract_id_from_resp`
(tasks.py:70-72): first string value `v` with `v.strip()` truthy,
`" " not in v`, and `len(v.strip()) >= 6`; returns `v.strip()`. -/
def lastResortCode : List (String × PyVal) → Option String
  | [] => none
  | (_, .pystr v) :: rest =>
      if !(pyStripWs v).isEmpty && !(hasSpace v) && decide ((pyStripWs v).length ≥ 6) then
        some (pyStripWs v)
      else lastResortCode rest
  | _ :: rest => lastResortCode rest

/-- `extract_id_from_resp` (tasks.py:27-74), the Response Normalizer.
Strings are stripped of whitespace, then `"` then `'`; dicts are probed
for `priority_keys`, then inside a nested `data` dict, then by the
last-resort value scan. Everything else yields `None`. -/
def extract_id_from_resp : PyVal → Option String
  | .pynone => none
  | .pystr s =>
      let raw := pyStripChar squote (pyStripChar dquote (pyStripWs s))
      if raw.isEmpty then none else some raw
  | .pydict fs =>
      match probeKeysCode fs priority_keys with
      | some r => some r
      | none =>
        match (match dictGet fs "data" with
               | .pydict ds => probeKeysCode ds priority_keys
               | _ => none) with
        | some r => some r
        | none => lastResortCode fs
  | _ => none


/-- Probe one priority key on a dict: a string value with non-blank
content qualifies and is returned stripped. Shared by the code loop and
the policy functions. -/
def probeKeyFn (fs : List (String × PyVal)) (k : String) : Option String :=
  match dictGet fs k with
  | .pystr s => if !(pyStripWs s).isEmpty then some (pyStripWs s) else none
  | _ => none

/-- Spec §4.2 last-resort filter: a string-valued field that contains no
whitespace and is at least 6 characters. -/
def lastResortSpecFn (p : String × PyVal) : Option String :=
  match p.2 with
  | .pystr v => if !(v.toList.any Char.isWhitespace) && decide (v.length ≥ 6) then some v else none
  | _ => none

/-- Amended last-resort filter, matching the source's test: a string value
whose stripped form is non-blank, containing no space character, whose
stripped form is at least 6 characters; the stripped form is returned. -/
def lastResortAmendedFn (p : String × PyVal) : Option String :=
  match p.2 with
  | .pystr v =>
      if !(pyStripWs v).isEmpty && !(hasSpace v) && decide ((pyStripWs v).length ≥ 6) then
        some (pyStripWs v)
      else none
  | _ => none

/-- Spec §4.2 policy, written from the spec's words: a string input is
trimmed of quote/whitespace characters (none if empty); a dict is probed
for the priority keys, then one level inside a nested `data` object, and
as a last resort the first string-valued field containing no whitespace
and at least 6 characters is returned. -/
def extractId_spec : PyVal → Option String
  | .pynone => none
  | .pystr s =>
      let r := String.mk (dropAround (fun c => c.isWhitespace || c == dquote || c == squote) s.toList)
      if r.isEmpty then none else some r
  | .pydict fs =>
      (priority_keys.findSome? (probeKeyFn fs)) <|>
      ((match dictGet fs "data" with
        | .pydict ds => priority_keys.findSome? (probeKeyFn ds)
        | _ => none) <|>
       fs.findSome? lastResortSpecFn)
  | _ => none

/-- The amended §4.2 policy: as `extractId_spec`, except that (a) a string
input is stripped of whitespace, then double quotes, then single quotes,
sequentially, and (b) the last-resort scan accepts the first string-valued
field that contains no space character (other whitespace is not excluded)
and whose whitespace-trimmed form is non-blank with at least 6 characters,
returning the trimmed form. -/
def extractId_amended : PyVal → Option String
  | .pynone => none
  | .pystr s =>
      let raw := pyStripChar squote (pyStripChar dquote (pyStripWs s))
      if raw.isEmpty then none else some raw
  | .pydict fs =>
      (priority_keys.findSome? (probeKeyFn fs)) <|>
      ((match dictGet fs "data" with
        | .pydict ds => priority_keys.findSome? (probeKeyFn ds)
        | _ => none) <|>
       fs.findSome? lastResortAmendedFn)
  | _ => none

/-- The explicit key loop of the source agrees with the `findSome?`
formulation used by the policy functions. -/
theorem probeKeysCode_eq_findSome (fs : List (String × PyVal)) (ks : List String) :
    probeKeysCode fs ks = ks.findSome? (probeKeyFn fs) := by
  induction ks with
  | nil => rfl
  | cons k ks ih =>
    simp only [probeKeysCode, List.findSome?, probeKeyFn]
    cases h : dictGet fs k with
    | pystr s =>
        by_cases hs : (pyStripWs s).isEmpty = true
        · simp [hs, ih]
        · simp [hs]
    | pynone => simpa using ih
    | pybool b => simpa using ih
    | pydict l => simpa using ih
    | pyother => simpa using ih

/-- The explicit last-resort loop of the source agrees with the `findSome?`
formulation used in the amended policy. -/
theorem lastResortCode_eq_findSome (fs : List (String × PyVal)) :
    lastResortCode fs = fs.findSome? lastResortAmendedFn := by
  induction fs with
  | nil => rfl
  | cons p rest ih =>
    obtain ⟨k, v⟩ := p
    cases v with
    | pystr s =>
        simp only [lastResortCode, List.findSome?, lastResortAmendedFn]
        by_cases hs : (!(pyStripWs s).isEmpty && !(hasSpace s) && decide ((pyStripWs s).length ≥ 6)) = true
        · simp [hs]
        · simp [hs, ih]
    | pynone => simpa [lastResortCode, List.findSome?, lastResortAmendedFn] using ih
    | pybool b => simpa [lastResortCode, List.findSome?, lastResortAmendedFn] using ih
    | pydict l => simpa [lastResortCode, List.findSome?, lastResortAmendedFn] using ih
    | pyother => simpa [lastResortCode, List.findSome?, lastResortAmendedFn] using ih

/-- C8 counterexample: on `{"k1": "ab\tcdef"}` the code's last-resort scan
accepts the value (its test rejects only the space character, not the
tab), while the spec's policy — no whitespace in a last-resort value —
yields none. So `extract_id_from_resp` does not follow the stated policy
on every input. -/
theorem c8_counterexample :
    extract_id_from_resp (.pydict [("k1", .pystr "ab\tcdef")]) = some "ab\tcdef" ∧
    extractId_spec (.pydict [("k1", .pystr "ab\tcdef")]) = none := by
  constructor <;> decide

/-- C8 (amended): `extract_id_from_resp` follows the amended §4.2 policy on
every input, and the four normalization examples of the spec hold as
stated. -/
theorem c8_extract_follows_amended_policy :
    (∀ resp : PyVal, extract_id_from_resp resp = extractId_amended resp) ∧
    extract_id_from_resp (.pydict [("projectId", .pystr "p-1")]) = some "p-1" ∧
    extract_id_from_resp (.pystr "\"abc123\"") = some "abc123" ∧
    extract_id_from_resp (.pydict [("data", .pydict [("id", .pystr "x-9")])]) = some "x-9" ∧
    extract_id_from_resp (.pydict []) = none := by
  refine ⟨?_, by decide, by decide, by decide, by decide⟩
  intro resp
  cases resp with
  | pynone => rfl
  | pystr s => rfl
  | pybool b => rfl
  | pyother => rfl
  | pydict fs =>
      simp only [extract_id_from_resp, extractId_amended,
        probeKeysCode_eq_findSome, lastResortCode_eq_findSome]
      cases hk : priority_keys.findSome? (probeKeyFn fs) with
      | some r => simp
      | none =>
        cases hd : dictGet fs "data" with
        | pydict ds =>
            cases hk2 : priority_keys.findSome? (probeKeyFn ds) with
            | some r => simp [hk2]
            | none => simp [hk2]
        | pynone => simp
        | pystr s => simp
        | pybool b => simp
        | pyother => simp

/-! ## Platform Client (dokploy_client.py) -/

/-- `DokployError` (dokploy_client.py:26-27): the typed platform error.
Only the message payload matters to the ledger. -/
structure DokployError where
  msg : String
deriving DecidableEq

/-- The error `_post` raises on exhaustion
(`DokployError(f"POST {path} failed after {max_retries} attempts: {e}")`,
dokploy_client.py:93): it states the attempt count and wraps the last
failure. -/
structure PostExhausted where
  attempts : Nat
  cause : DokployError
deriving DecidableEq

/-- The delay computed (then slept) by `_sleep_with_backoff`
(dokploy_client.py:30-37): `base_delay * 2^(attempt-1)`, capped at
`DOKPLOY_MAX_RETRY_DELAY_CAP` (default 60). -/
def sleep_with_backoff_delay (attempt base cap : Nat) : Nat :=
  let delay := base * 2 ^ (attempt - 1)
  if delay > cap then cap else delay

/-- The retry loop of `_post` (dokploy_client.py:72-93). `env attempt` is
the outcome of the HTTP request on that attempt (`.ok` = parsed 2xx body,
`.error` = network failure or non-2xx status). The second argument counts
the attempts left; the result pairs the returned value (or raised
exhaustion error) with the list of slept backoff delays in order. Falling
off the loop (only possible when `max_retries = 0`) is Python's implicit
`None`. -/
def post_retry_go (env : Nat → Except DokployError PyVal) (maxR base cap : Nat) :
    Nat → Nat → Except PostExhausted PyVal × List Nat
  | _, 0 => (.ok .pynone, [])
  | attempt, Nat.succ left =>
    match env attempt with
    | .ok r => (.ok r, [])
    | .error e =>
      if left = 0 then
        (.error ⟨maxR, e⟩, [])
      else
        let d := sleep_with_backoff_delay attempt base cap
        let rest := post_retry_go env maxR base cap (attempt + 1) left
        (rest.1, d :: rest.2)

/-- `_post` in retry mode (dokploy_client.py:67-93): attempts run from 1
to `max_retries`. -/
def post_with_retry (env : Nat → Except DokployError PyVal) (maxR base cap : Nat) :
    Except PostExhausted PyVal × List Nat :=
  post_retry_go env maxR base cap 1 maxR

/-- When every attempt fails, the retry loop raises the exhaustion error
wrapping the last failure, after sleeping the backoff delay once per
non-final attempt. -/
theorem post_retry_go_all_fail (env : Nat → Except DokployError PyVal)
    (maxR base cap : Nat) (e : DokployError) (hlast : env maxR = .error e) :
    ∀ left attempt, attempt + left = maxR + 1 → 1 ≤ left →
    (∀ i, attempt ≤ i → i ≤ maxR → ∃ er, env i = .error er) →
    post_retry_go env maxR base cap attempt left =
      (.error ⟨maxR, e⟩,
       (List.range' attempt (left - 1)).map (fun i => sleep_with_backoff_delay i base cap)) := by
  intro left
  induction left with
  | zero => intro attempt _ hpos _; omega
  | succ l ih =>
    intro attempt hsum _ hfail
    obtain ⟨er, her⟩ := hfail attempt le_rfl (by omega)
    rcases Nat.eq_zero_or_pos l with hl | hl
    · subst hl
      have ha : attempt = maxR := by omega
      subst ha
      rw [hlast] at her
      injection her with her
      subst her
      simp [post_retry_go, hlast]
    · have hl0 : l ≠ 0 := by omega
      simp only [post_retry_go, her, hl0, if_false]
      rw [ih (attempt + 1) (by omega) (by omega)
          (fun i hi1 hi2 => hfail i (by omega) hi2)]
      obtain ⟨m, rfl⟩ : ∃ m, l = m + 1 := ⟨l - 1, by omega⟩
      simp [List.range'_succ]

/-- C7 (confirmed): with base delay 3s, hard-coded multiplier 2 and cap
60s, the delay slept after failed attempt `k` (whenever a sleep happens,
i.e. while retries remain) is `min 60 (3 * 2^(k-1))`; concretely 3, 6, 12,
24, 48 for attempts 1 through 5. When all `maxR ≥ 1` attempts fail, the
loop raises the exhaustion error stating the attempt count and wrapping
the last failure, having slept exactly the backoff delays of attempts
1..maxR-1. -/
theorem c7_backoff_and_exhaustion (env : Nat → Except DokployError PyVal)
    (maxR k : Nat) (e : DokployError) (hk : 1 ≤ k) (hmax : 1 ≤ maxR)
    (hfail : ∀ i, 1 ≤ i → i ≤ maxR → ∃ er, env i = .error er)
    (hlast : env maxR = .error e) :
    sleep_with_backoff_delay k 3 60 = min 60 (3 * 2 ^ (k - 1)) ∧
    sleep_with_backoff_delay 1 3 60 = 3 ∧
    sleep_with_backoff_delay 2 3 60 = 6 ∧
    sleep_with_backoff_delay 3 3 60 = 12 ∧
    sleep_with_backoff_delay 4 3 60 = 24 ∧
    sleep_with_backoff_delay 5 3 60 = 48 ∧
    post_with_retry env maxR 3 60 =
      (.error ⟨maxR, e⟩,
       (List.range' 1 (maxR - 1)).map (fun i => sleep_with_backoff_delay i 3 60)) := by
  refine ⟨?_, by decide, by decide, by decide, by decide, by decide, ?_⟩
  · simp only [sleep_with_backoff_delay]
    generalize 3 * 2 ^ (k - 1) = d
    split <;> omega
  · exact post_retry_go_all_fail env maxR 3 60 e hlast maxR 1 (by omega) hmax hfail

/-- C7 witness: the theorem applied to the environment where every attempt
fails with the same error, with the default budget of 5 attempts. -/
theorem c7_backoff_and_exhaustion_witness :
    sleep_with_backoff_delay 3 3 60 = min 60 (3 * 2 ^ (3 - 1)) ∧
    sleep_with_backoff_delay 1 3 60 = 3 ∧
    sleep_with_backoff_delay 2 3 60 = 6 ∧
    sleep_with_backoff_delay 3 3 60 = 12 ∧
    sleep_with_backoff_delay 4 3 60 = 24 ∧
    sleep_with_backoff_delay 5 3 60 = 48 ∧
    post_with_retry (fun _ => .error ⟨"boom"⟩) 5 3 60 =
      (.error ⟨5, ⟨"boom"⟩⟩,
       (List.range' 1 (5 - 1)).map (fun i => sleep_with_backoff_delay i 3 60)) :=
  c7_backoff_and_exhaustion (fun _ => .error ⟨"boom"⟩) 5 3 ⟨"boom"⟩
    (by decide) (by decide) (fun i _ _ => ⟨⟨"boom"⟩, rfl⟩) rfl

/-! ## Database discovery (tasks.py:431-463)

`/project.all` responses are typed here: a project dict carries its
`projectId` and its list of attached `postgres` entries; a postgres entry
carries the identifier/credential keys the population helper reads, plus
`createdAt`. Python compares strings by code points, which is the
lexicographic order on the character list, so `createdAt` keys are
compared as `List Char`. Absent fields are `none`. -/

/-- One entry of a project's `postgres` list, with the keys read by
`_populate_db_fields_from_postgres_entry` (tasks.py:465-489) and
`choose_postgres_entry` (tasks.py:441-456). -/
structure PgEntry where
  postgresId : Option String := none
  id : Option String := none
  underscoreId : Option String := none
  postgres_id : Option String := none
  appName : Option String := none
  app_name : Option String := none
  name : Option String := none
  databaseName : Option String := none
  database_name : Option String := none
  databaseUser : Option String := none
  database_user : Option String := none
  databasePassword : Option String := none
  database_password : Option String := none
  externalPort : Option Nat := none
  port : Option Nat := none
  createdAt : Option String := none
deriving DecidableEq

/-- One project dict of the `/project.all` response, with the keys read by
`find_project_in_all` and `_fetch_postgres_entry_for_project`
(tasks.py:431-463). -/
structure Project where
  projectId : Option String := none
  postgres : List PgEntry := []
deriving DecidableEq

/-- `find_project_in_all` (tasks.py:431-439): first project whose
`projectId` equals the stored project id (the `str(...)` disjunct of the
source is the same comparison for string ids). -/
def find_project_in_all (projects_list : List Project) (project_id : String) : Option Project :=
  projects_list.find? (fun p => p.projectId == some project_id)

/-- The sort key of `choose_postgres_entry`: `x.get("createdAt") or ""`,
as the code-point sequence Python's string comparison orders by. -/
def createdKey (e : PgEntry) : List Char := (e.createdAt.getD "").toList

/-- Insert into a descending-sorted list, after strictly greater keys and
before lower-or-equal keys: the stable placement Python's
`sorted(..., reverse=True)` gives an earlier-input element. -/
def insertDesc {α : Type} (key : α → List Char) (a : α) : List α → List α
  | [] => [a]
  | b :: bs => if key a < key b then b :: insertDesc key a bs else a :: b :: bs

/-- Python's `sorted(l, key=key, reverse=True)`: stable descending sort
(elements with equal keys keep their input order). -/
def pySortDesc {α : Type} (key : α → List Char) : List α → List α
  | [] => []
  | a :: rest => insertDesc key a (pySortDesc key rest)

/-- `choose_postgres_entry` (tasks.py:441-456): first element of the list
sorted by `createdAt` (as a raw string) descending; `None` on an empty
list. In this typed model the `sorted` call cannot raise, so the
`except`-fallback to `postgres_list[0]` is unreachable. -/
def choose_postgres_entry (postgres_list : List PgEntry) : Option PgEntry :=
  if postgres_list.isEmpty then none
  else (pySortDesc createdKey postgres_list).head?

/-- `_fetch_postgres_entry_for_project` (tasks.py:458-463). -/
def fetch_postgres_entry_for_project (projects_list : List Project) (project_id : String) :
    Option PgEntry :=
  match find_project_in_all projects_list project_id with
  | none => none
  | some project => choose_postgres_entry project.postgres

/-- The first element carrying the maximal key: what the head of a stable
descending sort is. -/
def firstMaxBy {α : Type} (key : α → List Char) : List α → Option α
  | [] => none
  | a :: rest =>
    match firstMaxBy key rest with
    | none => some a
    | some m => if key a < key m then some m else some a

/-- `firstMaxBy` of a nonempty list is some element. -/
theorem firstMaxBy_eq_none {α : Type} (key : α → List Char) (l : List α) :
    firstMaxBy key l = none ↔ l = [] := by
  cases l with
  | nil => simp [firstMaxBy]
  | cons a rest =>
    simp only [firstMaxBy]
    cases firstMaxBy key rest with
    | none => simp
    | some m =>
      by_cases h : key a < key m
      · simp [h]
      · simp [h]

/-- `firstMaxBy` returns a member of the list. -/
theorem firstMaxBy_mem {α : Type} (key : α → List Char) (l : List α) (m : α)
    (hm : firstMaxBy key l = some m) : m ∈ l := by
  induction l generalizing m with
  | nil => simp [firstMaxBy] at hm
  | cons a rest ih =>
    simp only [firstMaxBy] at hm
    cases h : firstMaxBy key rest with
    | none => rw [h] at hm; simp at hm; simp [hm]
    | some m0 =>
      rw [h] at hm
      by_cases hlt : key a < key m0
      · simp [hlt] at hm
        subst hm
        exact List.mem_cons_of_mem a (ih m0 h)
      · simp [hlt] at hm
        simp [hm]

/-- The key of `firstMaxBy`'s result is maximal in the list. -/
theorem firstMaxBy_max {α : Type} (key : α → List Char) (l : List α) (m : α)
    (hm : firstMaxBy key l = some m) : ∀ x ∈ l, key x ≤ key m := by
  induction l generalizing m with
  | nil => simp [firstMaxBy] at hm
  | cons a rest ih =>
    simp only [firstMaxBy] at hm
    cases h : firstMaxBy key rest with
    | none =>
      rw [h] at hm
      simp at hm
      subst hm
      have : rest = [] := (firstMaxBy_eq_none key rest).mp h
      subst this
      simp
    | some m0 =>
      rw [h] at hm
      by_cases hlt : key a < key m0
      · simp [hlt] at hm
        subst hm
        intro x hx
        rcases List.mem_cons.mp hx with hx | hx
        · subst hx; exact le_of_lt hlt
        · exact ih _ h x hx
      · simp [hlt] at hm
        subst hm
        intro x hx
        rcases List.mem_cons.mp hx with hx | hx
        · subst hx; exact le_rfl
        · exact le_trans (ih m0 h x hx) (le_of_not_lt hlt)

/-- `firstMaxBy` returns the first element whose key is maximal. -/
theorem firstMaxBy_first {α : Type} (key : α → List Char) (l : List α) (m : α)
    (hm : firstMaxBy key l = some m) :
    ∃ pre post, l = pre ++ m :: post ∧ ∀ x ∈ pre, key x < key m := by
  induction l generalizing m with
  | nil => simp [firstMaxBy] at hm
  | cons a rest ih =>
    simp only [firstMaxBy] at hm
    cases h : firstMaxBy key rest with
    | none =>
      rw [h] at hm
      simp at hm
      subst hm
      exact ⟨[], rest, rfl, by simp⟩
    | some m0 =>
      rw [h] at hm
      by_cases hlt : key a < key m0
      · simp [hlt] at hm
        subst hm
        obtain ⟨pre, post, hsplit, hpre⟩ := ih m0 h
        refine ⟨a :: pre, post, by simp [hsplit], ?_⟩
        intro x hx
        rcases List.mem_cons.mp hx with hx | hx
        · subst hx; exact hlt
        · exact hpre x hx
      · simp [hlt] at hm
        subst hm
        exact ⟨[], rest, rfl, by simp⟩

/-- On a list whose keys are all equal, `firstMaxBy` is the head. -/
theorem firstMaxBy_const {α : Type} (key : α → List Char) (l : List α)
    (hconst : ∀ x ∈ l, ∀ y ∈ l, key x = key y) : firstMaxBy key l = l.head? := by
  cases l with
  | nil => rfl
  | cons a rest =>
    simp only [firstMaxBy]
    cases h : firstMaxBy key rest with
    | none => rfl
    | some m0 =>
      have hmem : m0 ∈ rest := firstMaxBy_mem key rest m0 h
      have : key a = key m0 :=
        hconst a (by simp) m0 (List.mem_cons_of_mem a hmem)
      simp [this]

/-- The head of the stable descending sort is the first maximal-key
element. -/
theorem pySortDesc_head {α : Type} (key : α → List Char) (l : List α) :
    (pySortDesc key l).head? = firstMaxBy key l := by
  induction l with
  | nil => rfl
  | cons a rest ih =>
    simp only [pySortDesc, firstMaxBy, ← ih]
    cases h : pySortDesc key rest with
    | nil => simp [insertDesc]
    | cons b bs =>
      simp only [insertDesc]
      by_cases hab : key a < key b
      · simp [hab]
      · simp [hab]

/-- C9 counterexample: with entries `[e1, e2]` whose `createdAt` strings
are an ISO timestamp and an unparsable string, the code selects `e2`
(lexicographically larger raw string), not the first entry `e1` that the
claim's fall-back — first entry when timestamps are unparsable — calls
for. No timestamp parsing happens in the code. -/
theorem c9_counterexample :
    choose_postgres_entry
      [{ createdAt := some "2024-05-01T00:00:00Z" }, { createdAt := some "unparsable" }] =
      some { createdAt := some "unparsable" } ∧
    ({ createdAt := some "unparsable" } : PgEntry) ≠ { createdAt := some "2024-05-01T00:00:00Z" } := by
  constructor <;> decide

/-- C9 (amended): database discovery selects, from the project matching
the stored id, the first `postgres` entry whose raw `createdAt` string
(absent timestamps count as the empty string) is lexicographically
maximal — which is the most recently created entry whenever the strings
are uniform ISO-8601 timestamps; when no entry has a `createdAt` the first
entry is returned; the result is none when the project is not found or has
no postgres entries. -/
theorem c9_db_discovery (projects : List Project) (pid : String)
    (proj : Project) (m : PgEntry)
    (hfind : find_project_in_all projects pid = some proj)
    (hm : fetch_postgres_entry_for_project projects pid = some m) :
    (m ∈ proj.postgres ∧
     (∀ x ∈ proj.postgres, createdKey x ≤ createdKey m) ∧
     (∃ pre post, proj.postgres = pre ++ m :: post ∧ ∀ x ∈ pre, createdKey x < createdKey m)) ∧
    ((∀ x ∈ proj.postgres, ∀ y ∈ proj.postgres, createdKey x = createdKey y) →
      some m = proj.postgres.head?) ∧
    (∀ ps q, find_project_in_all ps q = none →
      fetch_postgres_entry_for_project ps q = none) ∧
    (∀ ps q pr2, find_project_in_all ps q = some pr2 → pr2.postgres = [] →
      fetch_postgres_entry_for_project ps q = none) := by
  have hchoose : choose_postgres_entry proj.postgres = some m := by
    rw [fetch_postgres_entry_for_project, hfind] at hm
    exact hm
  have hne : proj.postgres.isEmpty = false := by
    by_contra h
    simp only [Bool.not_eq_false] at h
    rw [choose_postgres_entry, if_pos h] at hchoose
    exact Option.noConfusion hchoose
  have hfm : firstMaxBy createdKey proj.postgres = some m := by
    rw [choose_postgres_entry, hne] at hchoose
    simpa [pySortDesc_head] using hchoose
  refine ⟨⟨firstMaxBy_mem _ _ _ hfm, firstMaxBy_max _ _ _ hfm, firstMaxBy_first _ _ _ hfm⟩,
    ?_, ?_, ?_⟩
  · intro hconst
    rw [← firstMaxBy_const createdKey proj.postgres hconst, hfm]
  · intro ps q hnone
    rw [fetch_postgres_entry_for_project, hnone]
  · intro ps q pr2 hsome hempty
    rw [fetch_postgres_entry_for_project, hsome]
    simp [hempty, choose_postgres_entry]

/-- C9 witness: discovery on a single project with two timestamped
entries picks the later one. -/
theorem c9_db_discovery_witness :
    (({ createdAt := some "2024-05-02T00:00:00Z" } : PgEntry) ∈
      ([{ createdAt := some "2024-05-01T00:00:00Z" },
        { createdAt := some "2024-05-02T00:00:00Z" }] : List PgEntry) ∧
     (∀ x ∈ ([{ createdAt := some "2024-05-01T00:00:00Z" },
        { createdAt := some "2024-05-02T00:00:00Z" }] : List PgEntry),
        createdKey x ≤ createdKey { createdAt := some "2024-05-02T00:00:00Z" }) ∧
     (∃ pre post,
        ([{ createdAt := some "2024-05-01T00:00:00Z" },
          { createdAt := some "2024-05-02T00:00:00Z" }] : List PgEntry) =
          pre ++ { createdAt := some "2024-05-02T00:00:00Z" } :: post ∧
        ∀ x ∈ pre, createdKey x < createdKey ({ createdAt := some "2024-05-02T00:00:00Z" } : PgEntry))) ∧
    ((∀ x ∈ ([{ createdAt := some "2024-05-01T00:00:00Z" },
        { createdAt := some "2024-05-02T00:00:00Z" }] : List PgEntry),
      ∀ y ∈ ([{ createdAt := some "2024-05-01T00:00:00Z" },
        { createdAt := some "2024-05-02T00:00:00Z" }] : List PgEntry),
        createdKey x = createdKey y) →
      some ({ createdAt := some "2024-05-02T00:00:00Z" } : PgEntry) =
        ([{ createdAt := some "2024-05-01T00:00:00Z" },
          { createdAt := some "2024-05-02T00:00:00Z" }] : List PgEntry).head?) ∧
    (∀ ps q, find_project_in_all ps q = none →
      fetch_postgres_entry_for_project ps q = none) ∧
    (∀ ps q pr2, find_project_in_all ps q = some pr2 → pr2.postgres = [] →
      fetch_postgres_entry_for_project ps q = none) :=
  c9_db_discovery
    [{ projectId := some "p-1",
       postgres := [{ createdAt := some "2024-05-01T00:00:00Z" },
                    { createdAt := some "2024-05-02T00:00:00Z" }] }]
    "p-1"
    { projectId := some "p-1",
      postgres := [{ createdAt := some "2024-05-01T00:00:00Z" },
                   { createdAt := some "2024-05-02T00:00:00Z" }] }
    { createdAt := some "2024-05-02T00:00:00Z" }
    (by decide) (by decide)

/-! ## The Progress Ledger row and the step-function embedding (tasks.py)

`PR` is the `ProvisionRequest` row. Most fields are those of
src/provisioner/models.py; the fields `super_user_created`,
`backend_health_tries`, `backend_next_wait`,
`internal_provision_scheduled` and `backend_health_job_id` are read and
written by tasks.py / scheduler.py but their declarations are not in the
src models.py; they are modelled from the spec (§3 step-completion flags
and §4.3 health-check try counter). The model has no
`frontend_domain_id` / `backend_domain_id` / `backend_repo` /
`frontend_repo` fields, so every `hasattr(pr, ...)` test on those in
tasks.py is `False` and is embedded as its else-branch.

Nullable `CharField`s are `Option String`; Python falsiness of such a
field (`if not pr.x`) is `optFalsy`. `save()`/`refresh_from_db()` are
state passing: each step function maps a row and a call environment to
the updated row, a success flag, and the trace of remote calls issued. -/

/-- Python falsiness of a nullable string field (`None` or `""`). -/
def optFalsy : Option String → Bool
  | none => true
  | some s => s.isEmpty

/-- Python truthiness of a nullable string field. -/
def strTruthy (o : Option String) : Bool := !(optFalsy o)

/-- Python `or` on two nullable strings (an empty string falls through). -/
def orStr (a b : Option String) : Option String :=
  match a with
  | some s => if s.isEmpty then b else a
  | none => b

/-- Python `or` on two nullable ints (zero falls through). -/
def orNat (a b : Option Nat) : Option Nat :=
  match a with
  | some n => if n = 0 then b else some n
  | none => b

/-- Rendering of a `PyVal` into the f-string interpolations of detail
messages (the exact text of a rendered value is not load-bearing
anywhere; this is a simplified Python `str()`). -/
def pyRepr : PyVal → String
  | .pynone => "None"
  | .pystr s => s
  | .pybool b => if b then "True" else "False"
  | .pydict _ => "\x7bdict\x7d"
  | .pyother => "<object>"

/-- f-string rendering of an optional id (`None` when absent). -/
def optRepr : Option String → String
  | some s => s
  | none => "None"

/-- The ledger row (`ProvisionRequest`, models.py:3-50, plus the
spec-modelled health/finalize fields noted above). -/
structure PR where
  id : Nat := 0
  client_ref : Option String := none
  email : Option String := none
  company : String := ""
  subdomain : String := ""
  status : String := "pending"
  detail : String := ""
  client_name : String := ""
  project_name : Option String := none
  project_id : Option String := none
  backend_id : Option String := none
  frontend_id : Option String := none
  db_id : Option String := none
  db_app_name : Option String := none
  db_name : Option String := none
  db_user : Option String := none
  db_password : Option String := none
  db_port : Option String := none
  backend_domain : Option String := none
  frontend_domain : Option String := none
  project_created : Bool := false
  backend_created : Bool := false
  backend_git_attached : Bool := false
  backend_build_configured : Bool := false
  db_created : Bool := false
  backend_env_configured : Bool := false
  postgres_deploy_triggered : Bool := false
  backend_deploy_triggered : Bool := false
  frontend_created : Bool := false
  frontend_git_attached : Bool := false
  frontend_build_configured : Bool := false
  frontend_deploy_triggered : Bool := false
  domains_configured : Bool := false
  completed : Bool := false
  failed : Bool := false
  super_user_created : Bool := false
  backend_health_tries : Nat := 0
  backend_next_wait : Nat := 0
  internal_provision_scheduled : Bool := false
  backend_health_job_id : Option String := none
deriving DecidableEq

/-- The remote calls a run can issue, one constructor per call site;
`domain.delete` carries its `domainId` payload (the only payload a claim
depends on). -/
inductive RCall where
  | projectCreate
  | appCreateBackend
  | saveGitBackend
  | saveBuildBackend
  | postgresCreate
  | projectAll
  | saveEnvBackend
  | postgresDeploy
  | appDeployBackend
  | appCreateFrontend
  | saveGitFrontend
  | saveBuildFrontend
  | appDeployFrontend
  | domainCreateFrontend
  | domainCreateBackend
  | domainDelete (domainId : String)
deriving DecidableEq

/-- A job handed to the scheduler by the orchestrator. -/
inductive SchedJob where
  | backendHealthProvision (prId : Nat)
deriving DecidableEq

/-- The call environment of one orchestrator run: the outcome each remote
call site would get (each site is called at most once per run), plus the
Django settings and externally-derived values the run reads.
`generate_project_name` aggregates over the whole DB table (utils.py) and
only feeds naming payloads, so its output is an oracle field here. -/
structure Env where
  projectCreate : Except DokployError PyVal
  backendAppCreate : Except DokployError PyVal
  backendGit : Except DokployError PyVal
  backendBuild : Except DokployError PyVal
  postgresCreate : Except DokployError PyVal
  projectAll : Except DokployError (List Project)
  saveEnv : Except DokployError PyVal
  postgresDeploy : Except DokployError PyVal
  backendDeploy : Except DokployError PyVal
  frontendAppCreate : Except DokployError PyVal
  frontendGit : Except DokployError PyVal
  frontendBuild : Except DokployError PyVal
  frontendDeploy : Except DokployError PyVal
  frontendDomainCreate : Except DokployError PyVal
  backendDomainCreate : Except DokployError PyVal
  domainDelete : Except DokployError PyVal
  backendRepo : Option String := none
  frontendRepo : Option String := none
  baseDomain : Option String := none
  genProjectName : String := ""

/-- Result of one step function: updated row, boolean outcome, issued
calls in order. -/
structure StepOut where
  pr : PR
  ok : Bool
  calls : List RCall

/-- The recurring ledger failure write: `status="failed"`, `failed=True`,
detail appended (`pr.detail = (pr.detail or "") + msg`). -/
def markFailed (pr : PR) (m : String) : PR :=
  { pr with status := "failed", failed := true, detail := pr.detail ++ m }

/-- `create_project_task` (tasks.py:220-275). The `except Exception`
fallback (tasks.py:269) is unreachable here: the only raiser in the `try`
block is the platform call. Note this task replaces `detail` rather than
appending. -/
def create_project_task (env : Env) (pr0 : PR) : StepOut :=
  if pr0.client_name.isEmpty then
    { pr := { pr0 with
        status := "failed",
        detail := "Missing client_name",
        failed := true },
      ok := false, calls := [] }
  else
    let pr1 := { pr0 with status := "provisioning", project_name := some env.genProjectName }
    match env.projectCreate with
    | .error e =>
        { pr := { pr1 with
            status := "failed",
            failed := true,
            detail := "Project creation failed: " ++ e.msg },
          ok := false, calls := [.projectCreate] }
    | .ok resp =>
        match extract_id_from_resp resp with
        | none =>
            { pr := { pr1 with
                status := "failed",
                detail := "project.create returned unexpected response: " ++ pyRepr resp,
                failed := true },
              ok := false, calls := [.projectCreate] }
        | some project_id =>
            { pr := { pr1 with
                project_id := some project_id,
                project_created := true,
                status := "project_created",
                detail := "Project created (id=" ++ project_id ++ ")" },
              ok := true, calls := [.projectCreate] }

/-- A truthy dict value as the string Python would carry into an id field
(non-string truthy values are carried as their rendering; id keys hold
strings in practice). -/
def strOfTruthy (v : PyVal) : Option String :=
  if pyTruthy v then
    match v with
    | .pystr s => some s
    | _ => some (pyRepr v)
  else none

/-- The backend app-id extraction of tasks.py:320-323:
`resp.get("applicationId") or resp.get("applicationId") or resp.get("id")
or resp.get("_id")` (the duplicate key is the source's), falling back to
`extract_id_from_resp`. -/
def backendExtractAppId (resp : PyVal) : Option String :=
  let viaKeys : Option String :=
    match resp with
    | .pydict fs =>
        (strOfTruthy (dictGet fs "applicationId")) <|>
        (strOfTruthy (dictGet fs "applicationId")) <|>
        (strOfTruthy (dictGet fs "id")) <|>
        (strOfTruthy (dictGet fs "_id"))
    | _ => none
  match viaKeys with
  | some s => some s
  | none => extract_id_from_resp resp

/-- The frontend app-id extraction of tasks.py:734-737:
`resp.get("applicationId") or resp.get("id") or resp.get("_id")`, falling
back to `extract_id_from_resp`. -/
def frontendExtractAppId (resp : PyVal) : Option String :=
  let viaKeys : Option String :=
    match resp with
    | .pydict fs =>
        (strOfTruthy (dictGet fs "applicationId")) <|>
        (strOfTruthy (dictGet fs "id")) <|>
        (strOfTruthy (dictGet fs "_id"))
    | _ => none
  match viaKeys with
  | some s => some s
  | none => extract_id_from_resp resp

/-- Step A of `create_backend_service_task` (tasks.py:307-342): create
the backend application unless already created with an id. -/
def backend_stepA (env : Env) (pr0 : PR) : StepOut :=
  if !pr0.backend_created || optFalsy pr0.backend_id then
    match env.backendAppCreate with
    | .error e =>
        { pr := markFailed pr0 (" | application.create error: " ++ e.msg),
          ok := false, calls := [.appCreateBackend] }
    | .ok resp =>
        match backendExtractAppId resp with
        | none =>
            { pr := markFailed pr0
                (" | application.create error: application.create returned no application id: "
                  ++ pyRepr resp),
              ok := false, calls := [.appCreateBackend] }
        | some app_id =>
            { pr := { pr0 with
                backend_id := some app_id,
                backend_created := true,
                status := "backend_created",
                detail := pr0.detail ++ " | backend_created:" ++ app_id },
              ok := true, calls := [.appCreateBackend] }
  else { pr := pr0, ok := true, calls := [] }

/-- Step B of `create_backend_service_task` (tasks.py:355-384): attach
the git provider unless already attached. -/
def backend_stepB (env : Env) (pr1 : PR) : StepOut :=
  if !pr1.backend_git_attached then
    if optFalsy env.backendRepo then
      { pr := markFailed pr1 " | save_git_provider error: BACKEND_REPO not configured",
        ok := false, calls := [] }
    else
      match env.backendGit with
      | .error e =>
          { pr := markFailed pr1 (" | save_git_provider error: " ++ e.msg),
            ok := false, calls := [.saveGitBackend] }
      | .ok g =>
          { pr := { pr1 with
              backend_git_attached := true,
              status := "backend_git_attached",
              detail := pr1.detail ++ " | backend_git_attached:" ++ pyRepr g },
            ok := true, calls := [.saveGitBackend] }
  else { pr := pr1, ok := true, calls := [] }

/-- Step C of `create_backend_service_task` (tasks.py:386-415): set the
build type unless already configured. -/
def backend_stepC (env : Env) (pr2 : PR) : StepOut :=
  if !pr2.backend_build_configured then
    match env.backendBuild with
    | .error e =>
        { pr := markFailed pr2 (" | save_build_type error: " ++ e.msg),
          ok := false, calls := [.saveBuildBackend] }
    | .ok b =>
        { pr := { pr2 with
            backend_build_configured := true,
            status := "backend_ready",
            detail := pr2.detail ++ " | backend_build_configured:" ++ pyRepr b },
          ok := true, calls := [.saveBuildBackend] }
  else { pr := pr2, ok := true, calls := [] }

/-- `create_backend_service_task` (tasks.py:278-427): the three sub-steps
in order with the source's early returns and the backend-id sanity check.
The missing-row branch is not modelled (the orchestrator holds the row);
the outer `except Exception` (tasks.py:416) is unreachable (the
in-`try` `raise DokployError(...)` is caught by the inner
`except DokployError`). -/
def create_backend_service_task (env : Env) (pr0 : PR) : StepOut :=
  if optFalsy pr0.project_id then
    { pr := markFailed pr0 " | cannot create backend: missing project_id", ok := false, calls := [] }
  else
    let sA := backend_stepA env pr0
    if !sA.ok then sA
    else
      let pr1 := sA.pr
      if optFalsy pr1.backend_id then
        { pr := markFailed pr1 " | backend_id missing after create step",
          ok := false, calls := sA.calls }
      else
        let sB := backend_stepB env pr1
        if !sB.ok then { pr := sB.pr, ok := false, calls := sA.calls ++ sB.calls }
        else
          let sC := backend_stepC env sB.pr
          if !sC.ok then
            { pr := sC.pr, ok := false, calls := sA.calls ++ sB.calls ++ sC.calls }
          else
            let pr3 := sC.pr
            { pr := { pr3 with status := if pr3.status.isEmpty then "backend_done" else pr3.status },
              ok := true, calls := sA.calls ++ sB.calls ++ sC.calls }

/-- `_populate_db_fields_from_postgres_entry` (tasks.py:465-489):
populate the row's DB fields from a discovered postgres entry and set
`db_created`. -/
def populate_db_fields_from_postgres_entry (pr : PR) (e : PgEntry) : PR :=
  let postgres_id := orStr e.postgresId (orStr e.id (orStr e.underscoreId e.postgres_id))
  let app_name := (orStr e.appName (orStr e.app_name e.name)).getD ""
  let database_name := (orStr e.databaseName e.database_name).getD ""
  let database_user := (orStr e.databaseUser e.database_user).getD ""
  let database_password := (orStr e.databasePassword e.database_password).getD ""
  let external_port := orNat e.externalPort e.port
  let db_port :=
    match external_port with
    | some n => if n = 0 then "5432" else toString n
    | none => "5432"
  { pr with
    db_id := postgres_id,
    db_app_name := some app_name,
    db_name := some database_name,
    db_user := some database_user,
    db_password := some database_password,
    db_port := some db_port,
    db_created := true,
    detail := pr.detail ++ " | postgres_populated:" ++ optRepr postgres_id,
    status := if pr.status.isEmpty then "db_created" else pr.status }

/-- `create_postgres_task` (tasks.py:492-615): create the postgres (unless
already created with populated fields), discover it via `/project.all`,
then write the backend environment (unless already configured). -/
def create_postgres_task (env : Env) (pr0 : PR) : StepOut :=
  if optFalsy pr0.project_id then
    { pr := markFailed pr0 " | cannot create DB: missing project_id", ok := false, calls := [] }
  else if optFalsy pr0.backend_id then
    { pr := markFailed pr0 " | cannot set environment: missing backend application id",
      ok := false, calls := [] }
  else
    let createRes : StepOut :=
      if pr0.db_created && strTruthy pr0.db_id && strTruthy pr0.db_app_name &&
          strTruthy pr0.db_name && strTruthy pr0.db_user && strTruthy pr0.db_password then
        { pr := pr0, ok := true, calls := [] }
      else
        match env.postgresCreate with
        | .error e =>
            { pr := markFailed pr0 (" | postgres.create error: " ++ e.msg),
              ok := false, calls := [.postgresCreate] }
        | .ok resp =>
            let pr1 := { pr0 with detail := pr0.detail ++ " | postgres.create_resp:" ++ pyRepr resp }
            match env.projectAll with
            | .error e =>
                { pr := markFailed pr1 (" | project.all error: " ++ e.msg),
                  ok := false, calls := [.postgresCreate, .projectAll] }
            | .ok projects =>
                match fetch_postgres_entry_for_project projects (pr1.project_id.getD "") with
                | none =>
                    { pr := markFailed pr1 " | project.all did not show postgres entry after creation",
                      ok := false, calls := [.postgresCreate, .projectAll] }
                | some entry =>
                    { pr := populate_db_fields_from_postgres_entry pr1 entry,
                      ok := true, calls := [.postgresCreate, .projectAll] }
    if !createRes.ok then createRes
    else
      let pr2 := createRes.pr
      if pr2.backend_env_configured then { pr := pr2, ok := true, calls := createRes.calls }
      else
        match env.saveEnv with
        | .ok r =>
            { pr := { pr2 with
                backend_env_configured := true,
                status := "backend_env_configured",
                detail := pr2.detail ++ " | backend_env_set:" ++ pyRepr r },
              ok := true, calls := createRes.calls ++ [.saveEnvBackend] }
        | .error e =>
            { pr := markFailed pr2 (" | application.saveEnvironment failed: " ++ e.msg),
              ok := false, calls := createRes.calls ++ [.saveEnvBackend] }

/-- Result of `deploy_db_then_app_quick`: the row, the two responses the
Python function returns as a tuple, and the issued calls. -/
structure DeployOut where
  pr : PR
  pg_resp : Option PyVal
  app_resp : Option PyVal
  calls : List RCall

/-- Second half of `deploy_db_then_app_quick` (tasks.py:672-692): trigger
the backend application deploy unless already triggered. -/
def deploy_app_phase (env : Env) (pr1 : PR) (pg_resp : Option PyVal) (calls : List RCall) :
    DeployOut :=
  if !pr1.backend_deploy_triggered then
    match env.backendDeploy with
    | .error e =>
        { pr := markFailed pr1 (" | application.deploy_error:" ++ e.msg),
          pg_resp := pg_resp, app_resp := none, calls := calls ++ [.appDeployBackend] }
    | .ok r =>
        { pr := { pr1 with
            backend_deploy_triggered := true,
            status := "deploys_triggered",
            detail := pr1.detail ++ " | application_deploy_resp:" ++ pyRepr r },
          pg_resp := pg_resp, app_resp := some r, calls := calls ++ [.appDeployBackend] }
  else { pr := pr1, pg_resp := pg_resp, app_resp := none, calls := calls }

/-- `deploy_db_then_app_quick` (tasks.py:617-692): trigger the postgres
deploy then the application deploy, each skipped when its flag is already
set. Returns the tuple the source returns; note that on a run where the
postgres deploy was already triggered, `pg_resp` stays `None` even when
the application deploy succeeds, and that on an application-deploy
failure the function returns `(pg_resp, None)` — not `(None, None)` as
its docstring says. -/
def deploy_db_then_app_quick (env : Env) (pr0 : PR) : DeployOut :=
  if optFalsy pr0.db_id then
    { pr := markFailed pr0 " | missing db_id for deploy",
      pg_resp := none, app_resp := none, calls := [] }
  else if optFalsy pr0.backend_id then
    { pr := markFailed pr0 " | missing backend_id for deploy",
      pg_resp := none, app_resp := none, calls := [] }
  else
    if !pr0.postgres_deploy_triggered then
      match env.postgresDeploy with
      | .error e =>
          { pr := markFailed pr0 (" | postgres.deploy_error:" ++ e.msg),
            pg_resp := none, app_resp := none, calls := [.postgresDeploy] }
      | .ok r =>
          let pr1 := { pr0 with
            postgres_deploy_triggered := true,
            status := "postgres_deploy_triggered",
            detail := pr0.detail ++ " | postgres_deploy_resp:" ++ pyRepr r }
          deploy_app_phase env pr1 (some r) [.postgresDeploy]
    else deploy_app_phase env pr0 none []

/-- Step A of `create_frontend_service_task` (tasks.py:724-757): create
the frontend application unless already created with an id. -/
def frontend_stepA (env : Env) (pr0 : PR) : StepOut :=
  if !pr0.frontend_created || optFalsy pr0.frontend_id then
    match env.frontendAppCreate with
    | .error e =>
        { pr := markFailed pr0 (" | application.create(frontend) error: " ++ e.msg),
          ok := false, calls := [.appCreateFrontend] }
    | .ok resp =>
        match frontendExtractAppId resp with
        | none =>
            { pr := markFailed pr0
                (" | application.create(frontend) error: application.create returned no application id: "
                  ++ pyRepr resp),
              ok := false, calls := [.appCreateFrontend] }
        | some app_id =>
            { pr := { pr0 with
                frontend_id := some app_id,
                frontend_created := true,
                status := "frontend_created",
                detail := pr0.detail ++ " | frontend_created:" ++ app_id },
              ok := true, calls := [.appCreateFrontend] }
  else { pr := pr0, ok := true, calls := [] }

/-- Step B of `create_frontend_service_task` (tasks.py:770-798): attach
the git provider unless already attached. -/
def frontend_stepB (env : Env) (pr1 : PR) : StepOut :=
  if !pr1.frontend_git_attached then
    if optFalsy env.frontendRepo then
      { pr := markFailed pr1 " | save_git_provider(frontend) error: FRONTEND_REPO not configured",
        ok := false, calls := [] }
    else
      match env.frontendGit with
      | .error e =>
          { pr := markFailed pr1 (" | save_git_provider(frontend) error: " ++ e.msg),
            ok := false, calls := [.saveGitFrontend] }
      | .ok g =>
          { pr := { pr1 with
              frontend_git_attached := true,
              status := "frontend_git_attached",
              detail := pr1.detail ++ " | frontend_git_attached:" ++ pyRepr g },
            ok := true, calls := [.saveGitFrontend] }
  else { pr := pr1, ok := true, calls := [] }

/-- Step C of `create_frontend_service_task` (tasks.py:800-846): set the
build type unless already configured (the model has no
`frontend_build_type` attribute, so the `hasattr` branch at tasks.py:806
takes the default build config). -/
def frontend_stepC (env : Env) (pr2 : PR) : StepOut :=
  if !pr2.frontend_build_configured then
    match env.frontendBuild with
    | .error e =>
        { pr := markFailed pr2 (" | save_build_type(frontend) error: " ++ e.msg),
          ok := false, calls := [.saveBuildFrontend] }
    | .ok b =>
        { pr := { pr2 with
            frontend_build_configured := true,
            status := "frontend_build_configured",
            detail := pr2.detail ++ " | frontend_build_configured:" ++ pyRepr b },
          ok := true, calls := [.saveBuildFrontend] }
  else { pr := pr2, ok := true, calls := [] }

/-- Step D of `create_frontend_service_task` (tasks.py:848-870): trigger
the frontend deploy unless already triggered. -/
def frontend_stepD (env : Env) (pr3 : PR) : StepOut :=
  if !pr3.frontend_deploy_triggered then
    match env.frontendDeploy with
    | .error e =>
        { pr := markFailed pr3 (" | deploy_application(frontend) error: " ++ e.msg),
          ok := false, calls := [.appDeployFrontend] }
    | .ok d =>
        { pr := { pr3 with
            frontend_deploy_triggered := true,
            status := "frontend_deploy_triggered",
            detail := pr3.detail ++ " | frontend_deploy_resp:" ++ pyRepr d },
          ok := true, calls := [.appDeployFrontend] }
  else { pr := pr3, ok := true, calls := [] }

/-- `create_frontend_service_task` (tasks.py:695-877): the four sub-steps
in order with the source's early returns and the frontend-id sanity
check. The missing-row branch is not modelled (the orchestrator holds
the row). -/
def create_frontend_service_task (env : Env) (pr0 : PR) : StepOut :=
  if optFalsy pr0.project_id then
    { pr := markFailed pr0 " | cannot create frontend: missing project_id", ok := false, calls := [] }
  else
    let sA := frontend_stepA env pr0
    if !sA.ok then sA
    else
      let pr1 := sA.pr
      if optFalsy pr1.frontend_id then
        { pr := markFailed pr1 " | frontend_id missing after create step",
          ok := false, calls := sA.calls }
      else
        let sB := frontend_stepB env pr1
        if !sB.ok then { pr := sB.pr, ok := false, calls := sA.calls ++ sB.calls }
        else
          let sC := frontend_stepC env sB.pr
          if !sC.ok then
            { pr := sC.pr, ok := false, calls := sA.calls ++ sB.calls ++ sC.calls }
          else
            let sD := frontend_stepD env sC.pr
            if !sD.ok then
              { pr := sD.pr, ok := false,
                calls := sA.calls ++ sB.calls ++ sC.calls ++ sD.calls }
            else
              let pr4 := sD.pr
              { pr := { pr4 with
                  status := "frontend_ready",
                  detail := pr4.detail ++ " | frontend_created_and_deployed" },
                ok := true, calls := sA.calls ++ sB.calls ++ sC.calls ++ sD.calls }

/-- Keep only lowercase a-z, 0-9 and hyphen, replacing other characters
with a hyphen (the `re.sub(r"[^a-z0-9-]", "-", s)` of tasks.py:889). -/
def replaceInvalidChars (l : List Char) : List Char :=
  l.map (fun c =>
    if (Char.ofNat 97 ≤ c && c ≤ Char.ofNat 122) ||
       (Char.ofNat 48 ≤ c && c ≤ Char.ofNat 57) || c == Char.ofNat 45 then c else Char.ofNat 45)

/-- Collapse runs of hyphens to a single hyphen
(the `re.sub(r"-{2,}", "-", s)` of tasks.py:891). -/
def collapseHyphens : List Char → List Char
  | [] => []
  | [c] => [c]
  | a :: b :: rest =>
      if a == Char.ofNat 45 && b == Char.ofNat 45 then collapseHyphens (b :: rest)
      else a :: collapseHyphens (b :: rest)

/-- `_sanitize_subdomain` (tasks.py:880-894): strip, lowercase, replace
invalid characters with hyphens, collapse hyphen runs, trim hyphens, cap
at 63 characters. -/
def sanitize_subdomain (sub : String) : String :=
  if sub.isEmpty then ""
  else
    let l := (pyStripWs sub).toList.map Char.toLower
    let l := replaceInvalidChars l
    let l := collapseHyphens l
    let l := dropAround (fun c => c == Char.ofNat 45) l
    String.mk (l.take 63)

/-- The domain-id extraction of tasks.py:997-1001 and 1039-1042:
`resp.get("domainId") or extract_id_from_resp(resp)` for dicts,
`extract_id_from_resp(resp)` otherwise. -/
def domainIdOf (resp : PyVal) : Option String :=
  match resp with
  | .pydict fs => (strOfTruthy (dictGet fs "domainId")) <|> extract_id_from_resp resp
  | _ => extract_id_from_resp resp

/-- The success tail of `create_domains_task` (tasks.py:1082-1089): every
path reaching it has both domains present, so the source's defensive
`failed` tail (tasks.py:1091-1097) is dead code. -/
def finishDomains (pr2 : PR) (frontend_host backend_host : String) (calls : List RCall) : StepOut :=
  { pr := { pr2 with
      domains_configured := true,
      status := "domains_configured",
      detail := pr2.detail ++ " | domains_configured:" ++ frontend_host ++ "," ++ backend_host },
    ok := true, calls := calls }

/-- The backend-domain phase of `create_domains_task` (tasks.py:1025-1080):
skip when the recorded backend domain already equals the target host;
otherwise create it, and on failure mark failed and — only when the
frontend domain was created in this run and an id was extracted for it —
issue the best-effort rollback delete, clearing `frontend_domain` when the
delete succeeds and keeping the failed outcome when it fails. -/
def domains_backend_phase (env : Env) (pr1 : PR) (frontend_host backend_host : String)
    (created_frontend_now : Bool) (frontend_domain_id : Option String) (calls : List RCall) :
    StepOut :=
  if strTruthy pr1.backend_domain && pr1.backend_domain == some backend_host then
    finishDomains pr1 frontend_host backend_host calls
  else
    match env.backendDomainCreate with
    | .ok resp =>
        let backend_domain_id := domainIdOf resp
        let pr2 := { pr1 with
          backend_domain := some backend_host,
          detail := pr1.detail ++ " | backend_domain_id:" ++ optRepr backend_domain_id
            ++ " | backend_domain_created:" ++ backend_host }
        finishDomains pr2 frontend_host backend_host (calls ++ [.domainCreateBackend])
    | .error e =>
        let pr2 := markFailed pr1 (" | backend domain.create error: " ++ e.msg)
        if created_frontend_now && strTruthy frontend_domain_id then
          let fid := frontend_domain_id.getD ""
          match env.domainDelete with
          | .ok _ =>
              { pr := { pr2 with
                  frontend_domain := none,
                  detail := pr2.detail ++ " | frontend_domain_rollback:" ++ fid },
                ok := false, calls := calls ++ [.domainCreateBackend, .domainDelete fid] }
          | .error e2 =>
              { pr := { pr2 with
                  detail := pr2.detail ++ " | frontend_domain_rollback_failed:" ++ fid
                    ++ ":" ++ e2.msg },
                ok := false, calls := calls ++ [.domainCreateBackend, .domainDelete fid] }
        else { pr := pr2, ok := false, calls := calls ++ [.domainCreateBackend] }

/-- `create_domains_task` (tasks.py:896-1097): short-circuit when domains
are already configured with both hosts recorded; validate subdomain, base
domain and app ids; create the frontend domain (unless its host is
already recorded), then run the backend phase with its rollback. Since
the model has no `frontend_domain_id` field, the extracted id is carried
in the run (and rendered into `detail`), exactly as the `hasattr` else
branches do. -/
def create_domains_task (env : Env) (pr0 : PR) : StepOut :=
  if pr0.domains_configured && strTruthy pr0.frontend_domain && strTruthy pr0.backend_domain then
    { pr := pr0, ok := true, calls := [] }
  else
    let sub_raw := pyStripWs pr0.subdomain
    if sub_raw.isEmpty then
      { pr := markFailed pr0 " | missing subdomain (should not happen - view validates)",
        ok := false, calls := [] }
    else
      let sub := sanitize_subdomain sub_raw
      if sub.isEmpty then
        { pr := markFailed pr0 (" | invalid subdomain after sanitization: " ++ sub_raw),
          ok := false, calls := [] }
      else if optFalsy env.baseDomain then
        { pr := markFailed pr0 " | missing BASE_DOMAIN in settings", ok := false, calls := [] }
      else if optFalsy pr0.frontend_id then
        { pr := markFailed pr0 " | missing frontend_id (create frontend first)",
          ok := false, calls := [] }
      else if optFalsy pr0.backend_id then
        { pr := markFailed pr0 " | missing backend_id (create backend first)",
          ok := false, calls := [] }
      else
        let base_domain := env.baseDomain.getD ""
        let frontend_host := sub ++ "." ++ base_domain
        let backend_host := sub ++ "-backend." ++ base_domain
        if strTruthy pr0.frontend_domain && pr0.frontend_domain == some frontend_host then
          domains_backend_phase env pr0 frontend_host backend_host false none []
        else
          match env.frontendDomainCreate with
          | .error e =>
              { pr := markFailed pr0 (" | frontend domain.create error: " ++ e.msg),
                ok := false, calls := [.domainCreateFrontend] }
          | .ok resp =>
              let frontend_domain_id := domainIdOf resp
              let pr1 := { pr0 with
                frontend_domain := some frontend_host,
                detail := pr0.detail ++ " | frontend_domain_id:" ++ optRepr frontend_domain_id
                  ++ " | frontend_domain_created:" ++ frontend_host }
              domains_backend_phase env pr1 frontend_host backend_host true frontend_domain_id
                [.domainCreateFrontend]

/-- Result of one orchestrator run: final row, the boolean the task
returns to the scheduler, the remote calls issued, and the jobs handed to
the scheduler. -/
structure RunOut where
  pr : PR
  ok : Bool
  calls : List RCall
  scheds : List SchedJob

/-- Steps 5-7 of `provision_tenant_task` (tasks.py:166-214): frontend,
domains, then scheduling of the health/finalize job; `calls` carries the
trace accumulated by the earlier steps. -/
def provision_after_deploy (env : Env) (pr4 : PR) (calls : List RCall) : RunOut :=
  let s5 : StepOut :=
    if !(pr4.frontend_created && pr4.frontend_git_attached &&
         pr4.frontend_build_configured && pr4.frontend_deploy_triggered) then
      create_frontend_service_task env pr4
    else { pr := pr4, ok := true, calls := [] }
  if !s5.ok then
    { pr := s5.pr, ok := false, calls := calls ++ s5.calls, scheds := [] }
  else
    let pr5 := s5.pr
    let s6 : StepOut :=
      if !pr5.domains_configured then create_domains_task env pr5
      else { pr := pr5, ok := true, calls := [] }
    if !s6.ok then
      { pr := s6.pr, ok := false, calls := calls ++ s5.calls ++ s6.calls, scheds := [] }
    else
      let pr6 := s6.pr
      let scheds : List SchedJob :=
        if !pr6.super_user_created then [.backendHealthProvision pr6.id] else []
      { pr := pr6, ok := true, calls := calls ++ s5.calls ++ s6.calls, scheds := scheds }

/-- `provision_tenant_task` (tasks.py:78-214), the Orchestrator. Runs the
step functions in fixed order, each guarded by its completion flags; the
missing-row early return (tasks.py:92-95) is not modelled (the model
takes the row), the `payload` argument only feeds the scheduled health
job's payload, and the `time.sleep` pacing calls have no observable
effect here. The `if pr.failed: bail` guard of the source is commented
out (tasks.py:97-100), so no step is gated on `failed`. After the deploy
step the source checks only `pg_resp is None` (tasks.py:148-150), and
only inside the not-yet-triggered branch. -/
def provision_tenant_task (env : Env) (pr0 : PR) : RunOut :=
  let s1 : StepOut :=
    if !pr0.project_created then create_project_task env pr0
    else { pr := pr0, ok := true, calls := [] }
  if !s1.ok then { pr := s1.pr, ok := false, calls := s1.calls, scheds := [] }
  else
    let pr1 := s1.pr
    let s2 : StepOut :=
      if !(pr1.backend_created && pr1.backend_git_attached && pr1.backend_build_configured) then
        create_backend_service_task env pr1
      else { pr := pr1, ok := true, calls := [] }
    if !s2.ok then { pr := s2.pr, ok := false, calls := s1.calls ++ s2.calls, scheds := [] }
    else
      let pr2 := s2.pr
      let s3 : StepOut :=
        if !(pr2.db_created && pr2.backend_env_configured) then create_postgres_task env pr2
        else { pr := pr2, ok := true, calls := [] }
      if !s3.ok then
        { pr := s3.pr, ok := false, calls := s1.calls ++ s2.calls ++ s3.calls, scheds := [] }
      else
        let pr3 := s3.pr
        if !(pr3.postgres_deploy_triggered && pr3.backend_deploy_triggered) then
          let d := deploy_db_then_app_quick env pr3
          match d.pg_resp with
          | none =>
              { pr := d.pr, ok := false,
                calls := s1.calls ++ s2.calls ++ s3.calls ++ d.calls, scheds := [] }
          | some _ =>
              provision_after_deploy env d.pr (s1.calls ++ s2.calls ++ s3.calls ++ d.calls)
        else
          provision_after_deploy env pr3 (s1.calls ++ s2.calls ++ s3.calls)

/-- An environment in which every platform call succeeds with a
well-formed response, all settings are configured, and discovery finds
the created postgres. -/
def envAllOk : Env := {
  projectCreate := .ok (.pystr "proj-0001x")
  backendAppCreate := .ok (.pydict [("applicationId", .pystr "app-back-01")])
  backendGit := .ok (.pybool true)
  backendBuild := .ok (.pybool true)
  postgresCreate := .ok (.pybool true)
  projectAll := .ok [{ projectId := some "proj-0001x",
                       postgres := [{ postgresId := some "pg-0001xx", appName := some "lms",
                                      databaseName := some "acme_db", databaseUser := some "lms_user",
                                      databasePassword := some "pw123",
                                      createdAt := some "2024-01-01" }] }]
  saveEnv := .ok (.pybool true)
  postgresDeploy := .ok (.pybool true)
  backendDeploy := .ok (.pybool true)
  frontendAppCreate := .ok (.pydict [("applicationId", .pystr "app-frnt-01")])
  frontendGit := .ok (.pybool true)
  frontendBuild := .ok (.pybool true)
  frontendDeploy := .ok (.pybool true)
  frontendDomainCreate := .ok (.pydict [("domainId", .pystr "dom-front-1")])
  backendDomainCreate := .ok (.pydict [("domainId", .pystr "dom-back-1")])
  domainDelete := .ok (.pybool true)
  backendRepo := some "https://git.example/backend.git"
  frontendRepo := some "https://git.example/frontend.git"
  baseDomain := some "example.com"
  genProjectName := "Acme-001" }

/-- A ledger row that has completed every step up to (but not including)
the deploy step. -/
def rowDeployReady : PR := {
  id := 7
  client_name := "Acme"
  subdomain := "acme"
  project_name := some "Acme-001"
  project_id := some "proj-0001x"
  backend_id := some "app-back-01"
  project_created := true
  backend_created := true
  backend_git_attached := true
  backend_build_configured := true
  db_created := true
  db_id := some "pg-0001xx"
  db_app_name := some "lms"
  db_name := some "acme_db"
  db_user := some "lms_user"
  db_password := some "pw123"
  db_port := some "5432"
  backend_env_configured := true }

/-- The domain-ids of the delete-domain calls in a trace. -/
def deletesOf (calls : List RCall) : List String :=
  calls.filterMap (fun c => match c with | .domainDelete i => some i | _ => none)

/-- C1 counterexample: a ledger row with `failed = true` and unset
completion flags, submitted to `provision_tenant_task`, executes step
functions and issues remote calls (the project-create call among them):
the `failed` guard of the source is commented out. -/
theorem c1_counterexample :
    ({ client_name := "Acme", subdomain := "acme", id := 3, failed := true } : PR).failed = true ∧
    (provision_tenant_task envAllOk
      { client_name := "Acme", subdomain := "acme", id := 3, failed := true }).calls ≠ [] ∧
    RCall.projectCreate ∈
      (provision_tenant_task envAllOk
        { client_name := "Acme", subdomain := "acme", id := 3, failed := true }).calls := by
  refine ⟨rfl, ?_, ?_⟩ <;> decide

/-- C2, evaluated at the failing input: from a deploy-ready row, when the
postgres deploy succeeds and the backend application deploy fails, the
deploy step marks the ledger failed, yet the orchestrator continues —
the frontend step runs (its create call is issued) and the run returns
success. -/
theorem c2_failing_input_eval :
    (provision_tenant_task { envAllOk with backendDeploy := .error ⟨"deploy failed"⟩ }
      rowDeployReady).pr.failed = true ∧
    RCall.appCreateFrontend ∈
      (provision_tenant_task { envAllOk with backendDeploy := .error ⟨"deploy failed"⟩ }
        rowDeployReady).calls ∧
    (provision_tenant_task { envAllOk with backendDeploy := .error ⟨"deploy failed"⟩ }
      rowDeployReady).ok = true := by
  refine ⟨?_, ?_, ?_⟩ <;> decide

/-- C5, evaluated at the failing input: resuming a row whose postgres
deploy is already triggered, with every platform call succeeding, the
orchestrator returns a failure signal while the ledger records no
failure (`failed` stays false, status is the success label) — the
`pg_resp is None` check misfires on the resume path. -/
theorem c5_failing_input_eval :
    (provision_tenant_task envAllOk
      { rowDeployReady with postgres_deploy_triggered := true }).ok = false ∧
    (provision_tenant_task envAllOk
      { rowDeployReady with postgres_deploy_triggered := true }).pr.failed = false ∧
    (provision_tenant_task envAllOk
      { rowDeployReady with postgres_deploy_triggered := true }).pr.status
      = "deploys_triggered" := by
  refine ⟨?_, ?_, ?_⟩ <;> decide

/-- C3 counterexample: frontend domain creation succeeds in this run but
its response carries no extractable domain id; backend domain creation
then fails. The row ends failed, but `frontend_domain` is not cleared and
no delete-domain call is issued — against the claim's unconditional
"frontend_domain cleared, exactly one delete-domain call". -/
theorem c3_counterexample :
    (create_domains_task
      { envAllOk with
          frontendDomainCreate := .ok (.pydict [("ok", .pybool true)]),
          backendDomainCreate := .error ⟨"backend domain create failed"⟩ }
      { client_name := "Acme", subdomain := "acme",
        frontend_id := some "app-frnt-01", backend_id := some "app-back-01" }).pr.failed = true ∧
    (create_domains_task
      { envAllOk with
          frontendDomainCreate := .ok (.pydict [("ok", .pybool true)]),
          backendDomainCreate := .error ⟨"backend domain create failed"⟩ }
      { client_name := "Acme", subdomain := "acme",
        frontend_id := some "app-frnt-01", backend_id := some "app-back-01" }).pr.frontend_domain
      = some "acme.example.com" ∧
    deletesOf (create_domains_task
      { envAllOk with
          frontendDomainCreate := .ok (.pydict [("ok", .pybool true)]),
          backendDomainCreate := .error ⟨"backend domain create failed"⟩ }
      { client_name := "Acme", subdomain := "acme",
        frontend_id := some "app-frnt-01", backend_id := some "app-back-01" }).calls = [] := by
  refine ⟨?_, ?_, ?_⟩ <;> decide

/-- Whenever the client name is present, `create_project_task` issues
exactly the project-create call. -/
theorem create_project_task_calls (env : Env) (s : PR)
    (h : s.client_name.isEmpty = false) :
    (create_project_task env s).calls = [RCall.projectCreate] := by
  simp only [create_project_task, h, Bool.false_eq_true, if_false]
  cases henv : env.projectCreate with
  | error e => rfl
  | ok resp => cases hex : extract_id_from_resp resp <;> simp [hex]

/-- The calls of `provision_after_deploy` extend the calls accumulated so
far. -/
theorem provision_after_deploy_head (env : Env) (p : PR) (calls : List RCall)
    (a : RCall) (rest2 : List RCall) (h : calls = a :: rest2) :
    (provision_after_deploy env p calls).calls.head? = some a := by
  subst h
  simp only [provision_after_deploy]
  repeat' split
  all_goals rfl

/-- C1 (amended): `provision_tenant_task` never reads the `failed` flag
(the bail-out guard of the source is commented out), so invoking it on a
row with `failed = true` whose project step is incomplete re-runs the
workflow: the first remote call issued is the project-create call. An
operator action is still what re-invokes the task — nothing in the
orchestrator re-schedules a failed run — but the task itself does not
treat `failed` as terminal. -/
theorem c1_failed_not_gating (env : Env) (s : PR)
    (hfail : s.failed = true) (hproj : s.project_created = false)
    (hname : s.client_name.isEmpty = false) :
    (provision_tenant_task env s).calls.head? = some RCall.projectCreate := by
  have hc := create_project_task_calls env s hname
  simp only [provision_tenant_task, hproj, Bool.not_false, if_true]
  by_cases h1 : (create_project_task env s).ok
  · simp only [h1, Bool.not_true, Bool.false_eq_true, if_false]
    repeat' split
    all_goals rw [hc]
    all_goals first
      | rfl
      | exact provision_after_deploy_head _ _ _ _ _ rfl
  · simp only [Bool.not_eq_true] at h1
    simp only [h1, Bool.not_false, if_true]
    rw [hc]
    rfl

/-- The key probe never returns an empty string. -/
theorem probeKeysCode_nonempty (fs : List (String × PyVal)) (ks : List String) (x : String)
    (h : probeKeysCode fs ks = some x) : x.isEmpty = false := by
  induction ks with
  | nil => simp [probeKeysCode] at h
  | cons k ks ih =>
    simp only [probeKeysCode] at h
    cases hg : dictGet fs k with
    | pystr s =>
        rw [hg] at h
        by_cases hs : (pyStripWs s).isEmpty = true
        · simp [hs] at h
          exact ih h
        · simp only [Bool.not_eq_true] at hs
          simp [hs] at h
          rw [← h]
          exact hs
    | pynone => rw [hg] at h; exact ih h
    | pybool b => rw [hg] at h; exact ih h
    | pydict l => rw [hg] at h; exact ih h
    | pyother => rw [hg] at h; exact ih h

/-- The last-resort scan never returns an empty string. -/
theorem lastResortCode_nonempty (fs : List (String × PyVal)) (x : String)
    (h : lastResortCode fs = some x) : x.isEmpty = false := by
  induction fs with
  | nil => simp [lastResortCode] at h
  | cons p rest ih =>
    obtain ⟨k, v⟩ := p
    cases v with
    | pystr s =>
        simp only [lastResortCode] at h
        by_cases hs : (!(pyStripWs s).isEmpty && !(hasSpace s) && decide ((pyStripWs s).length ≥ 6)) = true
        · simp [hs] at h
          have : (pyStripWs s).isEmpty = false := by
            rcases Bool.and_eq_true_iff.mp hs with ⟨h1, _⟩
            rcases Bool.and_eq_true_iff.mp h1 with ⟨h2, _⟩
            simpa using h2
          rw [← h]
          exact this
        · simp [hs] at h
          exact ih h
    | pynone => simp only [lastResortCode] at h; exact ih h
    | pybool b => simp only [lastResortCode] at h; exact ih h
    | pydict l => simp only [lastResortCode] at h; exact ih h
    | pyother => simp only [lastResortCode] at h; exact ih h

/-- The Response Normalizer never returns an empty string: `none` is its
only representation of "no id". -/
theorem extract_id_nonempty (r : PyVal) (x : String)
    (h : extract_id_from_resp r = some x) : x.isEmpty = false := by
  cases r with
  | pynone => simp [extract_id_from_resp] at h
  | pybool b => simp [extract_id_from_resp] at h
  | pyother => simp [extract_id_from_resp] at h
  | pystr s =>
      simp only [extract_id_from_resp] at h
      by_cases he : (pyStripChar squote (pyStripChar dquote (pyStripWs s))).isEmpty = true
      · simp [he] at h
      · simp only [Bool.not_eq_true] at he
        simp [he] at h
        rw [← h]
        exact he
  | pydict fs =>
      simp only [extract_id_from_resp] at h
      cases h1 : probeKeysCode fs priority_keys with
      | some y =>
          rw [h1] at h
          simp at h
          rw [← h]
          exact probeKeysCode_nonempty fs priority_keys y h1
      | none =>
          rw [h1] at h
          cases hd : dictGet fs "data" with
          | pydict ds =>
              rw [hd] at h
              cases h2 : probeKeysCode ds priority_keys with
              | some y =>
                  simp [h2] at h
                  rw [← h]
                  exact probeKeysCode_nonempty ds priority_keys y h2
              | none =>
                  simp [h2] at h
                  exact lastResortCode_nonempty fs x h
          | pynone => rw [hd] at h; simp at h; exact lastResortCode_nonempty fs x h
          | pystr s2 => rw [hd] at h; simp at h; exact lastResortCode_nonempty fs x h
          | pybool b => rw [hd] at h; simp at h; exact lastResortCode_nonempty fs x h
          | pyother => rw [hd] at h; simp at h; exact lastResortCode_nonempty fs x h

/-- A truthy dict value is never rendered as an empty string. -/
theorem strOfTruthy_nonempty (v : PyVal) (x : String)
    (h : strOfTruthy v = some x) : x.isEmpty = false := by
  cases v with
  | pystr s =>
      simp only [strOfTruthy, pyTruthy] at h
      by_cases hs : s.isEmpty = true
      · simp [hs] at h
      · simp only [Bool.not_eq_true] at hs
        simp [hs] at h
        rw [← h]
        exact hs
  | pynone => simp [strOfTruthy, pyTruthy] at h
  | pybool b =>
      cases b with
      | false => simp [strOfTruthy, pyTruthy] at h
      | true => simp [strOfTruthy, pyTruthy, pyRepr] at h; rw [← h]; rfl
  | pydict fs =>
      simp only [strOfTruthy, pyTruthy] at h
      by_cases hf : fs.isEmpty = true
      · simp [hf] at h
      · simp only [Bool.not_eq_true] at hf
        simp [hf, pyRepr] at h
        rw [← h]
        rfl
  | pyother => simp [strOfTruthy, pyTruthy, pyRepr] at h; rw [← h]; rfl

/-- A domain id extracted from a creation response is never empty. -/
theorem domainIdOf_nonempty (r : PyVal) (x : String)
    (h : domainIdOf r = some x) : x.isEmpty = false := by
  cases r with
  | pydict fs =>
      simp only [domainIdOf] at h
      cases h1 : strOfTruthy (dictGet fs "domainId") with
      | some y =>
          rw [h1] at h
          simp at h
          rw [← h]
          exact strOfTruthy_nonempty _ y h1
      | none =>
          rw [h1] at h
          simp at h
          exact extract_id_nonempty _ x h
  | pynone => simp only [domainIdOf] at h; exact extract_id_nonempty _ x h
  | pystr s => simp only [domainIdOf] at h; exact extract_id_nonempty _ x h
  | pybool b => simp only [domainIdOf] at h; exact extract_id_nonempty _ x h
  | pyother => simp only [domainIdOf] at h; exact extract_id_nonempty _ x h

/-- The frontend host `create_domains_task` builds from a row's subdomain
and the configured base domain (tasks.py:961). -/
def frontendHostOf (env : Env) (s : PR) : String :=
  sanitize_subdomain (pyStripWs s.subdomain) ++ "." ++ env.baseDomain.getD ""

/-- The backend host `create_domains_task` builds (tasks.py:962). -/
def backendHostOf (env : Env) (s : PR) : String :=
  sanitize_subdomain (pyStripWs s.subdomain) ++ "-backend." ++ env.baseDomain.getD ""

/-- A truthy nullable string is not `None`. -/
theorem strTruthy_ne_none (o : Option String) (h : strTruthy o = true) : o ≠ none := by
  cases o with
  | none => simp [strTruthy, optFalsy] at h
  | some s => simp

/-- The backend phase turns `domains_configured` on only by returning
success, leaving the frontend host as given and with a backend host
recorded. -/
theorem domains_backend_phase_configured (env : Env) (p : PR) (fh bh : String)
    (cfn : Bool) (fid : Option String) (calls : List RCall)
    (h0 : p.domains_configured = false)
    (h1 : (domains_backend_phase env p fh bh cfn fid calls).pr.domains_configured = true) :
    (domains_backend_phase env p fh bh cfn fid calls).ok = true ∧
    (domains_backend_phase env p fh bh cfn fid calls).pr.frontend_domain = p.frontend_domain ∧
    (domains_backend_phase env p fh bh cfn fid calls).pr.backend_domain ≠ none := by
  by_cases g1 : (strTruthy p.backend_domain && p.backend_domain == some bh) = true
  · refine ⟨?_, ?_, ?_⟩ <;> simp only [domains_backend_phase, g1, if_true, finishDomains]
    exact strTruthy_ne_none _ (Bool.and_eq_true_iff.mp g1).1
  · cases hb : env.backendDomainCreate with
    | ok resp =>
        refine ⟨?_, ?_, ?_⟩ <;>
          simp only [domains_backend_phase, g1, if_false, hb, finishDomains] <;> simp
    | error e =>
        exfalso
        revert h1
        simp only [domains_backend_phase, g1, if_false, hb, markFailed]
        by_cases g2 : (cfn && strTruthy fid) = true
        · simp only [g2, if_true]
          cases hd : env.domainDelete <;> simp [h0]
        · simp only [g2, Bool.false_eq_true, if_false]
          simp [h0]

/-- When `create_domains_task` turns `domains_configured` on, it returned
success and both domain hosts are recorded on the row. -/
theorem domains_configured_requires_success (env2 : Env) (s2 : PR)
    (h0 : s2.domains_configured = false)
    (h1 : (create_domains_task env2 s2).pr.domains_configured = true) :
    (create_domains_task env2 s2).ok = true ∧
    (create_domains_task env2 s2).pr.frontend_domain ≠ none ∧
    (create_domains_task env2 s2).pr.backend_domain ≠ none := by
  by_cases g1 : (s2.domains_configured && strTruthy s2.frontend_domain &&
      strTruthy s2.backend_domain) = true
  · rw [h0] at g1
    simp at g1
  · rw [create_domains_task] at h1 ⊢
    rw [if_neg g1] at h1 ⊢
    by_cases g2 : (pyStripWs s2.subdomain).isEmpty = true
    · rw [if_pos g2] at h1 ⊢
      simp [markFailed, h0] at h1
    · rw [if_neg g2] at h1 ⊢
      by_cases g3 : (sanitize_subdomain (pyStripWs s2.subdomain)).isEmpty = true
      · rw [if_pos g3] at h1 ⊢
        simp [markFailed, h0] at h1
      · rw [if_neg g3] at h1 ⊢
        by_cases g4 : optFalsy env2.baseDomain = true
        · rw [if_pos g4] at h1 ⊢
          simp [markFailed, h0] at h1
        · rw [if_neg g4] at h1 ⊢
          by_cases g5 : optFalsy s2.frontend_id = true
          · rw [if_pos g5] at h1 ⊢
            simp [markFailed, h0] at h1
          · rw [if_neg g5] at h1 ⊢
            by_cases g6 : optFalsy s2.backend_id = true
            · rw [if_pos g6] at h1 ⊢
              simp [markFailed, h0] at h1
            · rw [if_neg g6] at h1 ⊢
              by_cases g7 : (strTruthy s2.frontend_domain &&
                  s2.frontend_domain ==
                    some (sanitize_subdomain (pyStripWs s2.subdomain) ++ "." ++
                      env2.baseDomain.getD "")) = true
              · rw [if_pos g7] at h1 ⊢
                have hph := domains_backend_phase_configured env2 s2 _ _ false none [] h0 h1
                refine ⟨hph.1, ?_, hph.2.2⟩
                rw [hph.2.1]
                exact strTruthy_ne_none _ (Bool.and_eq_true_iff.mp g7).1
              · rw [if_neg g7] at h1 ⊢
                cases hf : env2.frontendDomainCreate with
                | error e =>
                    rw [hf] at h1
                    simp [markFailed, h0] at h1
                | ok resp =>
                    rw [hf] at h1
                    dsimp only at h1 ⊢
                    have hph := domains_backend_phase_configured env2 _ _ _ true
                      (domainIdOf resp) [.domainCreateFrontend] (by simp [h0]) h1
                    refine ⟨hph.1, ?_, hph.2.2⟩
                    rw [hph.2.1]
                    simp

/-- Outcomes of the backend-domain phase when the creation call fails and
the frontend domain was created in this run: the row is failed, exactly
one rollback delete is issued when (and only when) a frontend domain id
was extracted, a successful delete clears `frontend_domain`, and a failed
delete leaves it as it was. -/
theorem domains_backend_phase_error (env : Env) (p : PR) (fh bh : String)
    (fid : Option String) (calls : List RCall) (e : DokployError)
    (hg : (strTruthy p.backend_domain && p.backend_domain == some bh) = false)
    (hb : env.backendDomainCreate = .error e)
    (hfid_ne : ∀ f, fid = some f → f.isEmpty = false) :
    (domains_backend_phase env p fh bh true fid calls).ok = false ∧
    (domains_backend_phase env p fh bh true fid calls).pr.failed = true ∧
    (domains_backend_phase env p fh bh true fid calls).pr.domains_configured
      = p.domains_configured ∧
    (∀ f, fid = some f →
      (domains_backend_phase env p fh bh true fid calls).calls
        = calls ++ [.domainCreateBackend, .domainDelete f] ∧
      (∀ x, env.domainDelete = .ok x →
        (domains_backend_phase env p fh bh true fid calls).pr.frontend_domain = none) ∧
      (∀ e2, env.domainDelete = .error e2 →
        (domains_backend_phase env p fh bh true fid calls).pr.frontend_domain
          = p.frontend_domain)) ∧
    (fid = none →
      (domains_backend_phase env p fh bh true fid calls).calls
        = calls ++ [.domainCreateBackend] ∧
      (domains_backend_phase env p fh bh true fid calls).pr.frontend_domain
        = p.frontend_domain) := by
  cases hf : fid with
  | none =>
      refine ⟨?_, ?_, ?_, ?_, ?_⟩ <;>
        simp only [domains_backend_phase, hg, Bool.false_eq_true, if_false, hb,
          (show strTruthy (none : Option String) = false from rfl),
          Bool.and_false, markFailed] <;> simp
  | some f =>
      have hne := hfid_ne f hf
      have htr : (true && strTruthy (some f)) = true := by
        simp [strTruthy, optFalsy, hne]
      cases hd : env.domainDelete with
      | ok x =>
          refine ⟨?_, ?_, ?_, ?_, ?_⟩ <;>
            simp only [domains_backend_phase, hg, Bool.false_eq_true, if_false, hb,
              htr, if_true, hd, markFailed] <;> simp
      | error e2 =>
          refine ⟨?_, ?_, ?_, ?_, ?_⟩ <;>
            simp only [domains_backend_phase, hg, Bool.false_eq_true, if_false, hb,
              htr, if_true, hd, markFailed] <;> simp

/-- C3 (amended): when the frontend domain is created in the current run
and backend domain creation then fails, the ledger row ends with
`failed = true` and `domains_configured` still false; when a domain id
was extracted from the frontend creation response, exactly one
delete-domain call is issued for that id, `frontend_domain` is cleared
when the rollback delete succeeds, and a failed rollback leaves the
already-failed outcome with the frontend host still recorded; when no id
was extracted, no delete is issued and the frontend host stays recorded.
`domains_configured` becomes true only on a successful run that leaves
both domains recorded. -/
theorem c3_domain_rollback_amended (env : Env) (s : PR) (r : PyVal) (e : DokployError)
    (hdone : s.domains_configured = false)
    (hsub : (pyStripWs s.subdomain).isEmpty = false)
    (hsan : (sanitize_subdomain (pyStripWs s.subdomain)).isEmpty = false)
    (hbase : optFalsy env.baseDomain = false)
    (hfid : optFalsy s.frontend_id = false)
    (hbid : optFalsy s.backend_id = false)
    (hnewf : (strTruthy s.frontend_domain &&
      s.frontend_domain == some (frontendHostOf env s)) = false)
    (hnewb : (strTruthy s.backend_domain &&
      s.backend_domain == some (backendHostOf env s)) = false)
    (hfront : env.frontendDomainCreate = .ok r)
    (hback : env.backendDomainCreate = .error e) :
    (create_domains_task env s).ok = false ∧
    (create_domains_task env s).pr.failed = true ∧
    (create_domains_task env s).pr.domains_configured = false ∧
    (∀ fid, domainIdOf r = some fid →
      deletesOf (create_domains_task env s).calls = [fid] ∧
      (∀ x, env.domainDelete = .ok x →
        (create_domains_task env s).pr.frontend_domain = none) ∧
      (∀ e2, env.domainDelete = .error e2 →
        (create_domains_task env s).pr.frontend_domain = some (frontendHostOf env s))) ∧
    (domainIdOf r = none →
      deletesOf (create_domains_task env s).calls = [] ∧
      (create_domains_task env s).pr.frontend_domain = some (frontendHostOf env s)) ∧
    (∀ env2 s2, s2.domains_configured = false →
      (create_domains_task env2 s2).pr.domains_configured = true →
      (create_domains_task env2 s2).ok = true ∧
      (create_domains_task env2 s2).pr.frontend_domain ≠ none ∧
      (create_domains_task env2 s2).pr.backend_domain ≠ none) := by
  have hnewf2 := hnewf
  have hnewb2 := hnewb
  simp only [frontendHostOf] at hnewf2
  simp only [backendHostOf] at hnewb2
  have hrun : create_domains_task env s =
      domains_backend_phase env
        { s with
          frontend_domain := some (frontendHostOf env s),
          detail := s.detail ++ " | frontend_domain_id:" ++ optRepr (domainIdOf r)
            ++ " | frontend_domain_created:" ++ frontendHostOf env s }
        (frontendHostOf env s) (backendHostOf env s) true (domainIdOf r)
        [.domainCreateFrontend] := by
    rw [create_domains_task]
    rw [if_neg (by simp [hdone])]
    rw [if_neg (by simp [hsub])]
    rw [if_neg (by simp [hsan])]
    rw [if_neg (by simp [hbase])]
    rw [if_neg (by simp [hfid])]
    rw [if_neg (by simp [hbid])]
    rw [if_neg (by simp [hnewf2])]
    rw [hfront]
    simp only [frontendHostOf, backendHostOf]
  have hphase := domains_backend_phase_error env
    { s with
      frontend_domain := some (frontendHostOf env s),
      detail := s.detail ++ " | frontend_domain_id:" ++ optRepr (domainIdOf r)
        ++ " | frontend_domain_created:" ++ frontendHostOf env s }
    (frontendHostOf env s) (backendHostOf env s) (domainIdOf r) [.domainCreateFrontend] e
    (by simpa using hnewb) hback
    (fun f hf => domainIdOf_nonempty r f hf)
  obtain ⟨ho, hfl, hdc, hsome, hnone⟩ := hphase
  rw [hrun]
  refine ⟨ho, hfl, ?_, ?_, ?_, ?_⟩
  · rw [hdc]
    simpa using hdone
  · intro fid hfidq
    obtain ⟨hcalls, hok, herr⟩ := hsome fid hfidq
    refine ⟨?_, hok, ?_⟩
    · rw [hcalls]
      simp [deletesOf]
    · intro e2 he2
      rw [herr e2 he2]
  · intro hfidq
    obtain ⟨hcalls, hfro⟩ := hnone hfidq
    refine ⟨?_, ?_⟩
    · rw [hcalls]
      simp [deletesOf]
    · rw [hfro]
  · exact fun env2 s2 h0 h1 => domains_configured_requires_success env2 s2 h0 h1

/-- Environment for the rollback scenario: frontend domain creation
succeeds with an extractable id, backend domain creation fails. -/
def env3w : Env :=
  { envAllOk with
    frontendDomainCreate := .ok (.pydict [("domainId", .pystr "dom-front-1")]),
    backendDomainCreate := .error ⟨"boom"⟩ }

/-- A row ready for domain creation. -/
def s3w : PR :=
  { client_name := "Acme", subdomain := "acme",
    frontend_id := some "app-frnt-01", backend_id := some "app-back-01" }

/-- C3 witness: the amended theorem applied to the concrete rollback
scenario — the row ends failed, exactly one delete is issued for the
frontend domain's id, and the successful delete clears the host. -/
theorem c3_domain_rollback_amended_witness :
    (create_domains_task env3w s3w).pr.failed = true ∧
    deletesOf (create_domains_task env3w s3w).calls = ["dom-front-1"] ∧
    (create_domains_task env3w s3w).pr.frontend_domain = none := by
  have h := c3_domain_rollback_amended env3w s3w
    (.pydict [("domainId", .pystr "dom-front-1")]) ⟨"boom"⟩
    rfl (by decide) (by decide) (by decide) (by decide) (by decide)
    (by decide) (by decide) rfl rfl
  refine ⟨h.2.1, ?_, ?_⟩
  · exact (h.2.2.2.1 "dom-front-1" (by decide)).1
  · exact (h.2.2.2.1 "dom-front-1" (by decide)).2.1 (.pybool true) rfl

/-- C1 witness: the amended theorem applied to a concrete failed row with
no step completed. -/
theorem c1_failed_not_gating_witness :
    (provision_tenant_task envAllOk
      { client_name := "Acme", subdomain := "acme", id := 3, failed := true }).calls.head?
      = some RCall.projectCreate :=
  c1_failed_not_gating envAllOk
    { client_name := "Acme", subdomain := "acme", id := 3, failed := true }
    rfl rfl (by decide)

/-- Step A characterization: it touches no other completion flag, fails
only with `failed` written, and turns `backend_created` on only after a
successful create-application response. -/
theorem backend_stepA_chars (env : Env) (s : PR) :
    (backend_stepA env s).pr.backend_git_attached = s.backend_git_attached ∧
    (backend_stepA env s).pr.backend_build_configured = s.backend_build_configured ∧
    ((backend_stepA env s).ok = false → (backend_stepA env s).pr.failed = true) ∧
    ((backend_stepA env s).pr.backend_created = true →
      s.backend_created = true ∨ ∃ r, env.backendAppCreate = .ok r ∧ backendExtractAppId r ≠ none) ∧
    (∀ e, env.backendAppCreate = .error e →
      (!s.backend_created || optFalsy s.backend_id) = true →
      (backend_stepA env s).pr.backend_created = s.backend_created ∧
      (backend_stepA env s).pr.failed = true) ∧
    (∀ e, env.backendAppCreate = .error e →
      (!s.backend_created || optFalsy s.backend_id) = true →
      (backend_stepA env s).ok = false) := by
  by_cases hc : (!s.backend_created || optFalsy s.backend_id) = true
  · cases ha : env.backendAppCreate with
    | error e =>
        refine ⟨?_, ?_, ?_, ?_, ?_, ?_⟩ <;>
          simp only [backend_stepA, hc, if_true, ha, markFailed] <;> simp
    | ok resp =>
        cases hx : backendExtractAppId resp with
        | none =>
            refine ⟨?_, ?_, ?_, ?_, ?_, ?_⟩
            · simp [backend_stepA, hc, ha, hx, markFailed]
            · simp [backend_stepA, hc, ha, hx, markFailed]
            · simp [backend_stepA, hc, ha, hx, markFailed]
            · intro hflag
              left
              simpa [backend_stepA, hc, ha, hx, markFailed] using hflag
            · intro e he
              exact absurd he (by simp)
            · intro e he
              exact absurd he (by simp)
        | some app_id =>
            refine ⟨?_, ?_, ?_, ?_, ?_, ?_⟩
            · simp [backend_stepA, hc, ha, hx, markFailed]
            · simp [backend_stepA, hc, ha, hx, markFailed]
            · simp [backend_stepA, hc, ha, hx, markFailed]
            · intro _
              exact Or.inr ⟨resp, rfl, by simp [hx]⟩
            · intro e he
              exact absurd he (by simp)
            · intro e he
              exact absurd he (by simp)
  · refine ⟨?_, ?_, ?_, ?_, ?_, ?_⟩ <;>
      simp only [backend_stepA, hc, Bool.false_eq_true, if_false] <;> simp_all

/-- Step B characterization. -/
theorem backend_stepB_chars (env : Env) (s : PR) :
    (backend_stepB env s).pr.backend_created = s.backend_created ∧
    (backend_stepB env s).pr.backend_build_configured = s.backend_build_configured ∧
    ((backend_stepB env s).ok = false → (backend_stepB env s).pr.failed = true) ∧
    ((backend_stepB env s).pr.backend_git_attached = true →
      s.backend_git_attached = true ∨ ∃ r, env.backendGit = .ok r) ∧
    (∀ e, env.backendGit = .error e → s.backend_git_attached = false →
      (backend_stepB env s).pr.backend_git_attached = false ∧
      ((backend_stepB env s).ok = true → False)) := by
  by_cases hg : s.backend_git_attached = true
  · refine ⟨?_, ?_, ?_, ?_, ?_⟩ <;>
      simp only [backend_stepB, hg, Bool.not_true, Bool.false_eq_true, if_false] <;> simp_all
  · simp only [Bool.not_eq_true] at hg
    by_cases hr : optFalsy env.backendRepo = true
    · refine ⟨?_, ?_, ?_, ?_, ?_⟩ <;>
        simp only [backend_stepB, hg, Bool.not_false, if_true, hr, markFailed] <;> simp_all
    · simp only [Bool.not_eq_true] at hr
      cases hgit : env.backendGit with
      | error e =>
          refine ⟨?_, ?_, ?_, ?_, ?_⟩ <;>
            simp only [backend_stepB, hg, Bool.not_false, if_true, hr, Bool.false_eq_true,
              if_false, hgit, markFailed] <;> simp_all
      | ok g =>
          refine ⟨?_, ?_, ?_, ?_, ?_⟩ <;>
            simp only [backend_stepB, hg, Bool.not_false, if_true, hr, Bool.false_eq_true,
              if_false, hgit, markFailed] <;> simp_all

/-- Step C characterization. -/
theorem backend_stepC_chars (env : Env) (s : PR) :
    (backend_stepC env s).pr.backend_created = s.backend_created ∧
    (backend_stepC env s).pr.backend_git_attached = s.backend_git_attached ∧
    ((backend_stepC env s).ok = false → (backend_stepC env s).pr.failed = true) ∧
    ((backend_stepC env s).pr.backend_build_configured = true →
      s.backend_build_configured = true ∨ ∃ r, env.backendBuild = .ok r) ∧
    (∀ e, env.backendBuild = .error e → s.backend_build_configured = false →
      (backend_stepC env s).pr.backend_build_configured = false ∧
      ((backend_stepC env s).ok = true → False)) := by
  by_cases hb : s.backend_build_configured = true
  · refine ⟨?_, ?_, ?_, ?_, ?_⟩ <;>
      simp only [backend_stepC, hb, Bool.not_true, Bool.false_eq_true, if_false] <;> simp_all
  · simp only [Bool.not_eq_true] at hb
    cases hbld : env.backendBuild with
    | error e =>
        refine ⟨?_, ?_, ?_, ?_, ?_⟩ <;>
          simp only [backend_stepC, hb, Bool.not_false, if_true, hbld, markFailed] <;> simp_all
    | ok b =>
        refine ⟨?_, ?_, ?_, ?_, ?_⟩ <;>
          simp only [backend_stepC, hb, Bool.not_false, if_true, hbld, markFailed] <;> simp_all

/-- Flag discipline of `create_backend_service_task`: each of its three
completion flags turns on only after the corresponding platform call
succeeded, and on a platform error the flag stays off with `failed`
written. -/
theorem create_backend_flags (env : Env) (s : PR) :
    (s.backend_created = false →
      ((create_backend_service_task env s).pr.backend_created = true →
        ∃ r, env.backendAppCreate = .ok r ∧ backendExtractAppId r ≠ none) ∧
      (∀ e, env.backendAppCreate = .error e →
        (create_backend_service_task env s).pr.backend_created = false ∧
        (create_backend_service_task env s).pr.failed = true)) ∧
    (s.backend_git_attached = false →
      ((create_backend_service_task env s).pr.backend_git_attached = true →
        ∃ r, env.backendGit = .ok r) ∧
      (∀ e, env.backendGit = .error e →
        (create_backend_service_task env s).pr.backend_git_attached = false ∧
        (create_backend_service_task env s).pr.failed = true)) ∧
    (s.backend_build_configured = false →
      ((create_backend_service_task env s).pr.backend_build_configured = true →
        ∃ r, env.backendBuild = .ok r) ∧
      (∀ e, env.backendBuild = .error e →
        (create_backend_service_task env s).pr.backend_build_configured = false ∧
        (create_backend_service_task env s).pr.failed = true)) := by
  obtain ⟨hA1, hA2, hA3, hA4, hA5, hA6⟩ := backend_stepA_chars env s
  obtain ⟨hB1, hB2, hB3, hB4, hB5⟩ := backend_stepB_chars env (backend_stepA env s).pr
  obtain ⟨hC1, hC2, hC3, hC4, hC5⟩ :=
    backend_stepC_chars env (backend_stepB env (backend_stepA env s).pr).pr
  by_cases hpid : optFalsy s.project_id = true
  · have hpr : (create_backend_service_task env s).pr
        = markFailed s " | cannot create backend: missing project_id" := by
      simp [create_backend_service_task, hpid]
    refine ⟨fun hbc => ⟨?_, ?_⟩, fun hg => ⟨?_, ?_⟩, fun hb => ⟨?_, ?_⟩⟩ <;>
      simp [hpr, markFailed, *]
  · by_cases hAok : (backend_stepA env s).ok = true
    · by_cases hsan : optFalsy (backend_stepA env s).pr.backend_id = true
      · have hpr : (create_backend_service_task env s).pr
            = markFailed (backend_stepA env s).pr " | backend_id missing after create step" := by
          simp [create_backend_service_task, hpid, hAok, hsan]
        refine ⟨fun hbc => ⟨?_, ?_⟩, fun hg => ⟨?_, ?_⟩, fun hb => ⟨?_, ?_⟩⟩
        · intro hflag
          rcases hA4 (by simpa [hpr, markFailed] using hflag) with h | h
          · exact absurd h (by simp [hbc])
          · exact h
        · intro e he
          exact absurd (hA6 e he (by simp [hbc])) (by simp [hAok])
        · intro hflag
          rw [hpr] at hflag
          simp [markFailed, hA1, hg] at hflag
        · intro e he
          refine ⟨?_, by simp [hpr, markFailed]⟩
          rw [hpr]
          simpa [markFailed, hA1] using hg
        · intro hflag
          rw [hpr] at hflag
          simp [markFailed, hA2, hb] at hflag
        · intro e he
          refine ⟨?_, by simp [hpr, markFailed]⟩
          rw [hpr]
          simpa [markFailed, hA2] using hb
      · by_cases hBok : (backend_stepB env (backend_stepA env s).pr).ok = true
        · by_cases hCok :
              (backend_stepC env (backend_stepB env (backend_stepA env s).pr).pr).ok = true
          · have hpr : (create_backend_service_task env s).pr
                = { (backend_stepC env (backend_stepB env (backend_stepA env s).pr).pr).pr with
                    status :=
                      if (backend_stepC env
                          (backend_stepB env (backend_stepA env s).pr).pr).pr.status.isEmpty then
                        "backend_done"
                      else (backend_stepC env
                          (backend_stepB env (backend_stepA env s).pr).pr).pr.status } := by
              simp [create_backend_service_task, hpid, hAok, hsan, hBok, hCok]
            refine ⟨fun hbc => ⟨?_, ?_⟩, fun hg => ⟨?_, ?_⟩, fun hb => ⟨?_, ?_⟩⟩
            · intro hflag
              rw [hpr] at hflag
              simp only [hC1, hB1] at hflag
              rcases hA4 hflag with h | h
              · exact absurd h (by simp [hbc])
              · exact h
            · intro e he
              exact absurd (hA6 e he (by simp [hbc])) (by simp [hAok])
            · intro hflag
              rw [hpr] at hflag
              simp only [hC2] at hflag
              rcases hB4 hflag with h | h
              · rw [hA1, hg] at h
                exact absurd h (by simp)
              · exact h
            · intro e he
              have := hB5 e he (by rw [hA1]; exact hg)
              exact absurd hBok (by simpa using this.2)
            · intro hflag
              rw [hpr] at hflag
              rcases hC4 hflag with h | h
              · rw [hB2, hA2, hb] at h
                exact absurd h (by simp)
              · exact h
            · intro e he
              have := hC5 e he (by rw [hB2, hA2]; exact hb)
              exact absurd hCok (by simpa using this.2)
          · have hpr : (create_backend_service_task env s).pr
                = (backend_stepC env (backend_stepB env (backend_stepA env s).pr).pr).pr := by
              simp [create_backend_service_task, hpid, hAok, hsan, hBok, hCok]
            refine ⟨fun hbc => ⟨?_, ?_⟩, fun hg => ⟨?_, ?_⟩, fun hb => ⟨?_, ?_⟩⟩
            · intro hflag
              rw [hpr, hC1, hB1] at hflag
              rcases hA4 hflag with h | h
              · exact absurd h (by simp [hbc])
              · exact h
            · intro e he
              exact absurd (hA6 e he (by simp [hbc])) (by simp [hAok])
            · intro hflag
              rw [hpr, hC2] at hflag
              rcases hB4 hflag with h | h
              · rw [hA1, hg] at h
                exact absurd h (by simp)
              · exact h
            · intro e he
              have := hB5 e he (by rw [hA1]; exact hg)
              exact absurd hBok (by simpa using this.2)
            · intro hflag
              rw [hpr] at hflag
              rcases hC4 hflag with h | h
              · rw [hB2, hA2, hb] at h
                exact absurd h (by simp)
              · exact h
            · intro e he
              have h5 := hC5 e he (by rw [hB2, hA2]; exact hb)
              refine ⟨by rw [hpr]; exact h5.1, ?_⟩
              rw [hpr]
              exact hC3 (by simpa using hCok)
        · have hpr : (create_backend_service_task env s).pr
              = (backend_stepB env (backend_stepA env s).pr).pr := by
            simp [create_backend_service_task, hpid, hAok, hsan, hBok]
          refine ⟨fun hbc => ⟨?_, ?_⟩, fun hg => ⟨?_, ?_⟩, fun hb => ⟨?_, ?_⟩⟩
          · intro hflag
            rw [hpr, hB1] at hflag
            rcases hA4 hflag with h | h
            · exact absurd h (by simp [hbc])
            · exact h
          · intro e he
            exact absurd (hA6 e he (by simp [hbc])) (by simp [hAok])
          · intro hflag
            rw [hpr] at hflag
            rcases hB4 hflag with h | h
            · rw [hA1, hg] at h
              exact absurd h (by simp)
            · exact h
          · intro e he
            have h5 := hB5 e he (by rw [hA1]; exact hg)
            refine ⟨by rw [hpr]; exact h5.1, ?_⟩
            rw [hpr]
            exact hB3 (by simpa using hBok)
          · intro hflag
            rw [hpr, hB2, hA2, hb] at hflag
            exact absurd hflag (by simp)
          · intro e he
            refine ⟨by rw [hpr, hB2, hA2]; exact hb, ?_⟩
            rw [hpr]
            exact hB3 (by simpa using hBok)
    · have hpr : (create_backend_service_task env s).pr = (backend_stepA env s).pr := by
        simp [create_backend_service_task, hpid, hAok]
      refine ⟨fun hbc => ⟨?_, ?_⟩, fun hg => ⟨?_, ?_⟩, fun hb => ⟨?_, ?_⟩⟩
      · intro hflag
        rw [hpr] at hflag
        rcases hA4 hflag with h | h
        · exact absurd h (by simp [hbc])
        · exact h
      · intro e he
        have h5 := hA5 e he (by simp [hbc])
        refine ⟨by rw [hpr, h5.1]; exact hbc, by rw [hpr]; exact h5.2⟩
      · intro hflag
        rw [hpr, hA1, hg] at hflag
        exact absurd hflag (by simp)
      · intro e he
        refine ⟨by rw [hpr, hA1]; exact hg, ?_⟩
        rw [hpr]
        exact hA3 (by simpa using hAok)
      · intro hflag
        rw [hpr, hA2, hb] at hflag
        exact absurd hflag (by simp)
      · intro e he
        refine ⟨by rw [hpr, hA2]; exact hb, ?_⟩
        rw [hpr]
        exact hA3 (by simpa using hAok)

/-- Flag discipline of `create_project_task`: `project_created` turns on
only after a successful create-project response with an extractable id;
on a platform error it stays off with `failed` written. -/
theorem create_project_flags (env : Env) (s : PR) :
    (s.project_created = false →
      ((create_project_task env s).pr.project_created = true →
        ∃ r, env.projectCreate = .ok r ∧ extract_id_from_resp r ≠ none) ∧
      (∀ e, env.projectCreate = .error e →
        (create_project_task env s).pr.project_created = false ∧
        (create_project_task env s).pr.failed = true)) := by
  intro hp
  by_cases hn : s.client_name.isEmpty = true
  · constructor
    · intro hflag
      simp [create_project_task, hn, hp] at hflag
    · intro e he
      simp [create_project_task, hn, hp]
  · simp only [Bool.not_eq_true] at hn
    cases he : env.projectCreate with
    | error e =>
        constructor
        · intro hflag
          simp [create_project_task, hn, he, hp] at hflag
        · intro e2 he2
          simp [create_project_task, hn, he, hp]
    | ok resp =>
        cases hex : extract_id_from_resp resp with
        | none =>
            constructor
            · intro hflag
              simp [create_project_task, hn, he, hex, hp] at hflag
            · intro e2 he2
              exact absurd he2 (by simp)
        | some pid =>
            constructor
            · intro _
              exact ⟨resp, rfl, by simp [hex]⟩
            · intro e2 he2
              exact absurd he2 (by simp)

/-- Characterization of the application-deploy phase of
`deploy_db_then_app_quick`. -/
theorem deploy_app_phase_chars (env : Env) (p : PR) (pg : Option PyVal) (calls : List RCall) :
    (deploy_app_phase env p pg calls).pr.postgres_deploy_triggered
      = p.postgres_deploy_triggered ∧
    ((deploy_app_phase env p pg calls).pr.backend_deploy_triggered = true →
      p.backend_deploy_triggered = true ∨ ∃ r, env.backendDeploy = .ok r) ∧
    (∀ e, env.backendDeploy = .error e → p.backend_deploy_triggered = false →
      (deploy_app_phase env p pg calls).pr.backend_deploy_triggered = false ∧
      (deploy_app_phase env p pg calls).pr.failed = true) := by
  by_cases hb : p.backend_deploy_triggered = true
  · refine ⟨?_, ?_, ?_⟩ <;>
      simp only [deploy_app_phase, hb, Bool.not_true, Bool.false_eq_true, if_false] <;> simp_all
  · simp only [Bool.not_eq_true] at hb
    cases hd : env.backendDeploy with
    | error e =>
        refine ⟨?_, ?_, ?_⟩ <;>
          simp only [deploy_app_phase, hb, Bool.not_false, if_true, hd, markFailed] <;> simp_all
    | ok r =>
        refine ⟨?_, ?_, ?_⟩ <;>
          simp only [deploy_app_phase, hb, Bool.not_false, if_true, hd, markFailed] <;> simp_all

/-- Flag discipline of `deploy_db_then_app_quick`: each deploy-trigger
flag turns on only after its deploy call succeeded; on a platform error
the flag stays off with `failed` written. -/
theorem deploy_flags (env : Env) (s : PR) :
    (s.postgres_deploy_triggered = false →
      ((deploy_db_then_app_quick env s).pr.postgres_deploy_triggered = true →
        ∃ r, env.postgresDeploy = .ok r) ∧
      (∀ e, env.postgresDeploy = .error e →
        (deploy_db_then_app_quick env s).pr.postgres_deploy_triggered = false ∧
        (deploy_db_then_app_quick env s).pr.failed = true)) ∧
    (s.backend_deploy_triggered = false →
      ((deploy_db_then_app_quick env s).pr.backend_deploy_triggered = true →
        ∃ r, env.backendDeploy = .ok r) ∧
      (∀ e, env.backendDeploy = .error e →
        (deploy_db_then_app_quick env s).pr.backend_deploy_triggered = false ∧
        (deploy_db_then_app_quick env s).pr.failed = true)) := by
  by_cases hdb : optFalsy s.db_id = true
  · have hpr : (deploy_db_then_app_quick env s).pr = markFailed s " | missing db_id for deploy" := by
      simp [deploy_db_then_app_quick, hdb]
    refine ⟨fun h1 => ⟨?_, ?_⟩, fun h2 => ⟨?_, ?_⟩⟩ <;> simp [hpr, markFailed, *]
  · by_cases hbid : optFalsy s.backend_id = true
    · have hpr : (deploy_db_then_app_quick env s).pr
          = markFailed s " | missing backend_id for deploy" := by
        simp [deploy_db_then_app_quick, hdb, hbid]
      refine ⟨fun h1 => ⟨?_, ?_⟩, fun h2 => ⟨?_, ?_⟩⟩ <;> simp [hpr, markFailed, *]
    · by_cases hpg : s.postgres_deploy_triggered = true
      · have hpr : (deploy_db_then_app_quick env s).pr = (deploy_app_phase env s none []).pr := by
          simp [deploy_db_then_app_quick, hdb, hbid, hpg]
        obtain ⟨hP1, hP2, hP3⟩ := deploy_app_phase_chars env s none []
        refine ⟨fun h1 => ⟨?_, ?_⟩, fun h2 => ⟨?_, ?_⟩⟩
        · exact absurd hpg (by simp [h1])
        · exact absurd hpg (by simp [h1])
        · intro hflag
          rw [hpr] at hflag
          rcases hP2 hflag with h | h
          · exact absurd h (by simp [h2])
          · exact h
        · intro e he
          have h3 := hP3 e he h2
          exact ⟨by rw [hpr]; exact h3.1, by rw [hpr]; exact h3.2⟩
      · simp only [Bool.not_eq_true] at hpg
        cases hpd : env.postgresDeploy with
        | error e0 =>
            have hpr : (deploy_db_then_app_quick env s).pr
                = markFailed s (" | postgres.deploy_error:" ++ e0.msg) := by
              simp [deploy_db_then_app_quick, hdb, hbid, hpg, hpd]
            refine ⟨fun h1 => ⟨?_, ?_⟩, fun h2 => ⟨?_, ?_⟩⟩ <;> simp [hpr, markFailed, *]
        | ok r0 =>
            have hpr : (deploy_db_then_app_quick env s).pr
                = (deploy_app_phase env
                    { s with
                      postgres_deploy_triggered := true,
                      status := "postgres_deploy_triggered",
                      detail := s.detail ++ " | postgres_deploy_resp:" ++ pyRepr r0 }
                    (some r0) [.postgresDeploy]).pr := by
              simp [deploy_db_then_app_quick, hdb, hbid, hpg, hpd]
            obtain ⟨hP1, hP2, hP3⟩ := deploy_app_phase_chars env
              { s with
                postgres_deploy_triggered := true,
                status := "postgres_deploy_triggered",
                detail := s.detail ++ " | postgres_deploy_resp:" ++ pyRepr r0 }
              (some r0) [.postgresDeploy]
            refine ⟨fun h1 => ⟨?_, ?_⟩, fun h2 => ⟨?_, ?_⟩⟩
            · intro _
              exact ⟨r0, rfl⟩
            · intro e he
              exact absurd he (by simp)
            · intro hflag
              rw [hpr] at hflag
              rcases hP2 hflag with h | h
              · exact absurd h (by simp [h2])
              · exact h
            · intro e he
              have h3 := hP3 e he (by simp [h2])
              exact ⟨by rw [hpr]; exact h3.1, by rw [hpr]; exact h3.2⟩


/-! ## Health-check / finalize loop (scheduler.py:66-167) -/

/-- Outcome of the internal-provision callback POST: 200 with `ok` body,
a non-ok response, or a raised exception. -/
inductive CallbackOutcome where
  | ok
  | badResponse (text : String)
  | exc (msg : String)
deriving DecidableEq

/-- One poll's environment: whether `/healthz` returned 200 with "ok" in
the body (exceptions and other statuses count as not healthy,
scheduler.py:91-97), and the callback outcome. -/
structure HealthEnv where
  healthy : Bool
  callback : CallbackOutcome
deriving DecidableEq

/-- Result of one `backend_health_and_provision_attempt` invocation: the
row, the delay in seconds of the self-rescheduled poll (none when no
further poll is scheduled) and the number of internal-provision POSTs
issued. -/
structure HealthOut where
  pr : PR
  resched : Option Nat
  provisionCalls : Nat
deriving DecidableEq

/-- `backend_health_and_provision_attempt` (scheduler.py:66-167): one
poll. Missing backend domain marks failed; a healthy poll calls the
internal-provision endpoint once and marks completed (or failed when the
callback fails); an unhealthy poll increments the try counter, gives up
as failed at 10 tries, and otherwise reschedules itself after
`2^(tries-1)` minutes for tries ≤ 6 and 60 minutes beyond (stored in
seconds in `backend_next_wait`). The missing-row early return is not
modelled. -/
def backend_health_and_provision_attempt (env : HealthEnv) (pr : PR) : HealthOut :=
  if optFalsy pr.backend_domain then
    { pr := { pr with
        failed := true, status := "failed",
        detail := pr.detail ++ " | backend_domain missing" },
      resched := none, provisionCalls := 0 }
  else
    if env.healthy then
      match env.callback with
      | .ok =>
          { pr := { pr with
              completed := true, status := "completed",
              detail := pr.detail ++ " | internal_provision_success",
              super_user_created := true,
              internal_provision_scheduled := false,
              backend_health_job_id := none },
            resched := none, provisionCalls := 1 }
      | .badResponse t =>
          { pr := { pr with
              failed := true, status := "failed",
              detail := pr.detail ++ " | internal_provision_failed: " ++ t },
            resched := none, provisionCalls := 1 }
      | .exc m =>
          { pr := { pr with
              failed := true, status := "failed",
              detail := pr.detail ++ " | internal_provision_exception: " ++ m },
            resched := none, provisionCalls := 1 }
    else
      let tries := pr.backend_health_tries + 1
      if tries ≥ 10 then
        { pr := { pr with
            backend_health_tries := tries,
            failed := true, status := "failed",
            detail := pr.detail ++ " | backend never became healthy after 10 tries",
            internal_provision_scheduled := false,
            backend_health_job_id := none },
          resched := none, provisionCalls := 0 }
      else
        let delay_minutes := if tries ≤ 6 then 2 ^ (tries - 1) else 60
        { pr := { pr with
            backend_health_tries := tries,
            backend_next_wait := delay_minutes * 60,
            detail := pr.detail ++ " | retry=" ++ toString tries
              ++ " next_wait=" ++ toString delay_minutes ++ "m" },
          resched := some (delay_minutes * 60), provisionCalls := 0 }

/-- Iterated polls: the row after `n` invocations under a fixed
environment. -/
def iterateHealth (env : HealthEnv) : Nat → PR → PR
  | 0, pr => pr
  | n + 1, pr => iterateHealth env n (backend_health_and_provision_attempt env pr).pr

/-- C6 counterexample: a healthy poll whose internal-provision callback
returns a non-ok response marks the request failed, not completed — the
claim's "when a poll finds the backend healthy ... the request is marked
completed" fails. -/
theorem c6_counterexample :
    (backend_health_and_provision_attempt ⟨true, .badResponse "nope"⟩
      { backend_domain := some "acme-backend.example.com" }).pr.completed = false ∧
    (backend_health_and_provision_attempt ⟨true, .badResponse "nope"⟩
      { backend_domain := some "acme-backend.example.com" }).pr.failed = true ∧
    (backend_health_and_provision_attempt ⟨true, .badResponse "nope"⟩
      { backend_domain := some "acme-backend.example.com" }).provisionCalls = 1 := by
  refine ⟨?_, ?_, ?_⟩ <;> decide

/-- C6 (amended): with a backend domain recorded, each unhealthy poll
increments the try counter and reschedules itself after
`2^(tries-1)` minutes for tries 1..6 and 60 minutes for later tries
(stored as seconds); the 10th consecutive unhealthy poll marks the
request failed and schedules no further poll (shown concretely from a
fresh row); a healthy poll issues the internal-provision callback once
and marks the request completed when the callback succeeds, while a
failing callback marks it failed (never completed), in both cases
scheduling no further poll. -/
theorem c6_health_loop_amended (env : HealthEnv) (s : PR)
    (hdom : optFalsy s.backend_domain = false) :
    (env.healthy = false → s.backend_health_tries + 1 < 10 →
      (backend_health_and_provision_attempt env s).pr.backend_health_tries
        = s.backend_health_tries + 1 ∧
      (backend_health_and_provision_attempt env s).resched
        = some ((if s.backend_health_tries + 1 ≤ 6 then 2 ^ (s.backend_health_tries + 1 - 1)
            else 60) * 60) ∧
      (backend_health_and_provision_attempt env s).pr.failed = s.failed) ∧
    (env.healthy = false → s.backend_health_tries + 1 ≥ 10 →
      (backend_health_and_provision_attempt env s).pr.failed = true ∧
      (backend_health_and_provision_attempt env s).resched = none) ∧
    (env.healthy = true → env.callback = .ok →
      (backend_health_and_provision_attempt env s).pr.completed = true ∧
      (backend_health_and_provision_attempt env s).pr.super_user_created = true ∧
      (backend_health_and_provision_attempt env s).resched = none ∧
      (backend_health_and_provision_attempt env s).provisionCalls = 1) ∧
    (env.healthy = true →
      (∀ t, env.callback = .badResponse t →
        (backend_health_and_provision_attempt env s).pr.failed = true ∧
        (backend_health_and_provision_attempt env s).pr.completed = s.completed ∧
        (backend_health_and_provision_attempt env s).resched = none ∧
        (backend_health_and_provision_attempt env s).provisionCalls = 1) ∧
      (∀ m, env.callback = .exc m →
        (backend_health_and_provision_attempt env s).pr.failed = true ∧
        (backend_health_and_provision_attempt env s).pr.completed = s.completed ∧
        (backend_health_and_provision_attempt env s).resched = none ∧
        (backend_health_and_provision_attempt env s).provisionCalls = 1)) ∧
    ((backend_health_and_provision_attempt ⟨false, .ok⟩
        (iterateHealth ⟨false, .ok⟩ 9
          { backend_domain := some "acme-backend.example.com" })).pr.failed = true ∧
     (backend_health_and_provision_attempt ⟨false, .ok⟩
        (iterateHealth ⟨false, .ok⟩ 9
          { backend_domain := some "acme-backend.example.com" })).resched = none) := by
  refine ⟨?_, ?_, ?_, ?_, by constructor <;> decide⟩
  · intro hh hlt
    have h10 : ¬(s.backend_health_tries + 1 ≥ 10) := by omega
    refine ⟨?_, ?_, ?_⟩ <;>
      simp [backend_health_and_provision_attempt, hdom, hh, h10]
  · intro hh h10
    constructor <;>
      simp [backend_health_and_provision_attempt, hdom, hh, h10]
  · intro hh hcb
    refine ⟨?_, ?_, ?_, ?_⟩ <;>
      simp [backend_health_and_provision_attempt, hdom, hh, hcb]
  · intro hh
    constructor
    · intro t hcb
      refine ⟨?_, ?_, ?_, ?_⟩ <;>
        simp [backend_health_and_provision_attempt, hdom, hh, hcb]
    · intro m hcb
      refine ⟨?_, ?_, ?_, ?_⟩ <;>
        simp [backend_health_and_provision_attempt, hdom, hh, hcb]

/-- C6 witness: the amended theorem applied to a fresh row under an
unhealthy environment. -/
theorem c6_health_loop_amended_witness :
    (backend_health_and_provision_attempt ⟨false, .ok⟩
      { backend_domain := some "acme-backend.example.com" }).pr.backend_health_tries = 1 ∧
    (backend_health_and_provision_attempt ⟨false, .ok⟩
      { backend_domain := some "acme-backend.example.com" }).resched = some 60 := by
  have h := (c6_health_loop_amended ⟨false, .ok⟩
    { backend_domain := some "acme-backend.example.com" } (by decide)).1 rfl (by decide)
  exact ⟨by simpa using h.1, by simpa using h.2.1⟩

/-! ## Inbound request view (views.py:13-96) -/

/-- The two shared secrets of the inbound endpoint. -/
structure ViewCfg where
  secret1 : String
  secret2 : String
deriving DecidableEq

/-- The JSON body of a provisioning request (absent keys are `none`). -/
structure Request where
  secret1 : Option String := none
  secret2 : Option String := none
  client_ref : Option String := none
  client_name : Option String := none
  subdomain : Option String := none
  email : Option String := none
  company : Option String := none
  password : Option String := none
deriving DecidableEq

/-- The responses `provision_request_view` can return. -/
inductive ViewResponse where
  | unauthorized
  | clientNameRequired
  | subdomainRequired
  | subdomainExists
  | alreadyProvisioned (id : Nat) (status detail : String)
  | alreadyExists (id : Nat) (status detail : String)
  | accepted (id : Nat)
deriving DecidableEq

/-- Result of one view invocation: the response, the table afterwards, and
the request ids handed to `schedule_provision_job`. -/
structure ViewOut where
  response : ViewResponse
  db : List PR
  jobs : List Nat
deriving DecidableEq

/-- Row creation and scheduling (views.py:74-96): the fresh autoincrement
id is one past the largest id in the table. -/
def view_create (db : List PR) (req : Request) : ViewOut :=
  let newId := (db.map (fun r => r.id)).foldr max 0 + 1
  let row : PR := {
    id := newId,
    client_ref := req.client_ref,
    client_name := req.client_name.getD "",
    email := req.email,
    company := req.company.getD "",
    subdomain := req.subdomain.getD "",
    status := "pending" }
  { response := .accepted newId, db := db ++ [row], jobs := [newId] }

/-- `provision_request_view` (views.py:13-96): secret check, required
fields, the subdomain-uniqueness check, then the correlation-id
(`client_ref`) idempotency check, and finally row creation plus
scheduling. Note the subdomain check runs before the `client_ref`
check. -/
def provision_request_view (cfg : ViewCfg) (db : List PR) (req : Request) : ViewOut :=
  if !(req.secret1 == some cfg.secret1 && req.secret2 == some cfg.secret2) then
    { response := .unauthorized, db := db, jobs := [] }
  else if optFalsy req.client_name then
    { response := .clientNameRequired, db := db, jobs := [] }
  else if optFalsy req.subdomain then
    { response := .subdomainRequired, db := db, jobs := [] }
  else
    match db.find? (fun row => row.subdomain == req.subdomain.getD "") with
    | some _ => { response := .subdomainExists, db := db, jobs := [] }
    | none =>
        if strTruthy req.client_ref then
          match db.find? (fun row => row.client_ref == req.client_ref) with
          | some existing =>
              if existing.status == "completed" then
                { response := .alreadyProvisioned existing.id existing.status existing.detail,
                  db := db, jobs := [] }
              else
                { response := .alreadyExists existing.id existing.status existing.detail,
                  db := db, jobs := [] }
          | none => view_create db req
        else view_create db req

/-- C4 counterexample: resubmitting a completed request with its original
correlation id and its original subdomain is rejected by the
subdomain-uniqueness check (400), not answered with the prior result —
though still without creating a row or scheduling a job. -/
theorem c4_counterexample :
    (provision_request_view ⟨"s1", "s2"⟩
      [{ id := 1, client_ref := some "r1", subdomain := "acme",
         client_name := "Acme", status := "completed" }]
      { secret1 := some "s1", secret2 := some "s2", client_ref := some "r1",
        client_name := some "Acme", subdomain := some "acme" }).response
      = .subdomainExists ∧
    (provision_request_view ⟨"s1", "s2"⟩
      [{ id := 1, client_ref := some "r1", subdomain := "acme",
         client_name := "Acme", status := "completed" }]
      { secret1 := some "s1", secret2 := some "s2", client_ref := some "r1",
        client_name := some "Acme", subdomain := some "acme" }).response
      ≠ .alreadyProvisioned 1 "completed" "" ∧
    (provision_request_view ⟨"s1", "s2"⟩
      [{ id := 1, client_ref := some "r1", subdomain := "acme",
         client_name := "Acme", status := "completed" }]
      { secret1 := some "s1", secret2 := some "s2", client_ref := some "r1",
        client_name := some "Acme", subdomain := some "acme" }).jobs = [] := by
  refine ⟨?_, ?_, ?_⟩ <;> decide

/-- C4 (amended): provided the submitted subdomain does not collide with
any existing row (the subdomain-uniqueness check runs first), a
submission whose correlation id maps to a completed row returns the prior
result (id, status, detail), and one mapping to a non-completed row
returns the already-in-progress response carrying the current status; in
both cases the table is unchanged and no job is scheduled. Moreover any
authorized, well-formed submission whose (non-empty) correlation id maps
to an existing row creates no row and schedules no job, whatever its
subdomain. -/
theorem c4_duplicate_submission_amended (cfg : ViewCfg) (db : List PR) (req : Request)
    (row : PR) (ref : String)
    (hs1 : req.secret1 = some cfg.secret1) (hs2 : req.secret2 = some cfg.secret2)
    (hname : optFalsy req.client_name = false)
    (hsub : optFalsy req.subdomain = false)
    (hnosub : db.find? (fun r => r.subdomain == req.subdomain.getD "") = none)
    (href : req.client_ref = some ref) (hrefne : ref.isEmpty = false)
    (hfind : db.find? (fun r => r.client_ref == req.client_ref) = some row) :
    ((row.status = "completed" →
        (provision_request_view cfg db req).response
          = .alreadyProvisioned row.id row.status row.detail) ∧
      (row.status ≠ "completed" →
        (provision_request_view cfg db req).response
          = .alreadyExists row.id row.status row.detail) ∧
      (provision_request_view cfg db req).db = db ∧
      (provision_request_view cfg db req).jobs = []) ∧
    (∀ db2 req2 row2 ref2, req2.client_ref = some ref2 → ref2.isEmpty = false →
      db2.find? (fun r => r.client_ref == req2.client_ref) = some row2 →
      (provision_request_view cfg db2 req2).db = db2 ∧
      (provision_request_view cfg db2 req2).jobs = []) := by
  have hauth : (!(req.secret1 == some cfg.secret1 && req.secret2 == some cfg.secret2)) = false := by
    simp [hs1, hs2]
  have htr : strTruthy req.client_ref = true := by
    simp [strTruthy, optFalsy, href, hrefne]
  have hrun : provision_request_view cfg db req =
      (if row.status == "completed" then
        { response := .alreadyProvisioned row.id row.status row.detail, db := db, jobs := [] }
      else
        { response := .alreadyExists row.id row.status row.detail, db := db, jobs := [] }) := by
    rw [provision_request_view]
    rw [if_neg (by simp [hauth])]
    rw [if_neg (by simp [hname])]
    rw [if_neg (by simp [hsub])]
    rw [hnosub]
    simp only [htr, if_true, hfind]
  refine ⟨⟨?_, ?_, ?_, ?_⟩, ?_⟩
  · intro hst
    rw [hrun, if_pos (by simp [hst])]
  · intro hst
    rw [hrun, if_neg (by simp [hst])]
  · rw [hrun]
    split <;> rfl
  · rw [hrun]
    split <;> rfl
  · intro db2 req2 row2 ref2 href2 hrefne2 hfind2
    have htr2 : strTruthy req2.client_ref = true := by
      simp [strTruthy, optFalsy, href2, hrefne2]
    rw [provision_request_view]
    by_cases ha : (!(req2.secret1 == some cfg.secret1 && req2.secret2 == some cfg.secret2)) = true
    · rw [if_pos ha]
      exact ⟨rfl, rfl⟩
    · rw [if_neg ha]
      by_cases hn : optFalsy req2.client_name = true
      · rw [if_pos hn]
        exact ⟨rfl, rfl⟩
      · rw [if_neg hn]
        by_cases hs : optFalsy req2.subdomain = true
        · rw [if_pos hs]
          exact ⟨rfl, rfl⟩
        · rw [if_neg hs]
          cases hfs : db2.find? (fun r => r.subdomain == req2.subdomain.getD "") with
          | some x => exact ⟨rfl, rfl⟩
          | none =>
              simp only [htr2, if_true, hfind2]
              split <;> exact ⟨rfl, rfl⟩

/-- C4 witness: the amended theorem applied to a completed row and a
duplicate submission carrying a fresh subdomain. -/
theorem c4_duplicate_submission_amended_witness :
    (provision_request_view ⟨"s1", "s2"⟩
      [{ id := 1, client_ref := some "r1", subdomain := "acme",
         client_name := "Acme", status := "completed", detail := "done" }]
      { secret1 := some "s1", secret2 := some "s2", client_ref := some "r1",
        client_name := some "Acme", subdomain := some "other" }).response
      = .alreadyProvisioned 1 "completed" "done" :=
  ((c4_duplicate_submission_amended ⟨"s1", "s2"⟩
    [{ id := 1, client_ref := some "r1", subdomain := "acme",
       client_name := "Acme", status := "completed", detail := "done" }]
    { secret1 := some "s1", secret2 := some "s2", client_ref := some "r1",
      client_name := some "Acme", subdomain := some "other" }
    { id := 1, client_ref := some "r1", subdomain := "acme",
      client_name := "Acme", status := "completed", detail := "done" }
    "r1" rfl rfl (by decide) (by decide) (by decide) rfl (by decide) (by decide)).1.1 rfl)

/-- Frontend step A characterization: it touches no other completion
flag, fails only with `failed` written, and turns `frontend_created` on
only after a successful create-application response. -/
theorem frontend_stepA_chars (env : Env) (s : PR) :
    (frontend_stepA env s).pr.frontend_git_attached = s.frontend_git_attached ∧
    (frontend_stepA env s).pr.frontend_build_configured = s.frontend_build_configured ∧
    (frontend_stepA env s).pr.frontend_deploy_triggered = s.frontend_deploy_triggered ∧
    ((frontend_stepA env s).ok = false → (frontend_stepA env s).pr.failed = true) ∧
    ((frontend_stepA env s).pr.frontend_created = true →
      s.frontend_created = true ∨
        ∃ r, env.frontendAppCreate = .ok r ∧ frontendExtractAppId r ≠ none) ∧
    (∀ e, env.frontendAppCreate = .error e →
      (!s.frontend_created || optFalsy s.frontend_id) = true →
      (frontend_stepA env s).pr.frontend_created = s.frontend_created ∧
      (frontend_stepA env s).pr.failed = true) ∧
    (∀ e, env.frontendAppCreate = .error e →
      (!s.frontend_created || optFalsy s.frontend_id) = true →
      (frontend_stepA env s).ok = false) := by
  by_cases hc : (!s.frontend_created || optFalsy s.frontend_id) = true
  · cases ha : env.frontendAppCreate with
    | error e =>
        refine ⟨?_, ?_, ?_, ?_, ?_, ?_, ?_⟩ <;>
          simp only [frontend_stepA, hc, if_true, ha, markFailed] <;> simp
    | ok resp =>
        cases hx : frontendExtractAppId resp with
        | none =>
            refine ⟨?_, ?_, ?_, ?_, ?_, ?_, ?_⟩
            · simp [frontend_stepA, hc, ha, hx, markFailed]
            · simp [frontend_stepA, hc, ha, hx, markFailed]
            · simp [frontend_stepA, hc, ha, hx, markFailed]
            · simp [frontend_stepA, hc, ha, hx, markFailed]
            · intro hflag
              left
              simpa [frontend_stepA, hc, ha, hx, markFailed] using hflag
            · intro e he
              exact absurd he (by simp)
            · intro e he
              exact absurd he (by simp)
        | some app_id =>
            refine ⟨?_, ?_, ?_, ?_, ?_, ?_, ?_⟩
            · simp [frontend_stepA, hc, ha, hx, markFailed]
            · simp [frontend_stepA, hc, ha, hx, markFailed]
            · simp [frontend_stepA, hc, ha, hx, markFailed]
            · simp [frontend_stepA, hc, ha, hx, markFailed]
            · intro _
              exact Or.inr ⟨resp, rfl, by simp [hx]⟩
            · intro e he
              exact absurd he (by simp)
            · intro e he
              exact absurd he (by simp)
  · refine ⟨?_, ?_, ?_, ?_, ?_, ?_, ?_⟩ <;>
      simp only [frontend_stepA, hc, Bool.false_eq_true, if_false] <;> simp_all

/-- Frontend step B characterization. -/
theorem frontend_stepB_chars (env : Env) (s : PR) :
    (frontend_stepB env s).pr.frontend_created = s.frontend_created ∧
    (frontend_stepB env s).pr.frontend_build_configured = s.frontend_build_configured ∧
    (frontend_stepB env s).pr.frontend_deploy_triggered = s.frontend_deploy_triggered ∧
    ((frontend_stepB env s).ok = false → (frontend_stepB env s).pr.failed = true) ∧
    ((frontend_stepB env s).pr.frontend_git_attached = true →
      s.frontend_git_attached = true ∨ ∃ r, env.frontendGit = .ok r) ∧
    (∀ e, env.frontendGit = .error e → s.frontend_git_attached = false →
      (frontend_stepB env s).pr.frontend_git_attached = false ∧
      ((frontend_stepB env s).ok = true → False)) := by
  by_cases hg : s.frontend_git_attached = true
  · refine ⟨?_, ?_, ?_, ?_, ?_, ?_⟩ <;>
      simp only [frontend_stepB, hg, Bool.not_true, Bool.false_eq_true, if_false] <;> simp_all
  · simp only [Bool.not_eq_true] at hg
    by_cases hr : optFalsy env.frontendRepo = true
    · refine ⟨?_, ?_, ?_, ?_, ?_, ?_⟩ <;>
        simp only [frontend_stepB, hg, Bool.not_false, if_true, hr, markFailed] <;> simp_all
    · simp only [Bool.not_eq_true] at hr
      cases hgit : env.frontendGit with
      | error e =>
          refine ⟨?_, ?_, ?_, ?_, ?_, ?_⟩ <;>
            simp only [frontend_stepB, hg, Bool.not_false, if_true, hr, Bool.false_eq_true,
              if_false, hgit, markFailed] <;> simp_all
      | ok g =>
          refine ⟨?_, ?_, ?_, ?_, ?_, ?_⟩ <;>
            simp only [frontend_stepB, hg, Bool.not_false, if_true, hr, Bool.false_eq_true,
              if_false, hgit, markFailed] <;> simp_all

/-- Frontend step C characterization. -/
theorem frontend_stepC_chars (env : Env) (s : PR) :
    (frontend_stepC env s).pr.frontend_created = s.frontend_created ∧
    (frontend_stepC env s).pr.frontend_git_attached = s.frontend_git_attached ∧
    (frontend_stepC env s).pr.frontend_deploy_triggered = s.frontend_deploy_triggered ∧
    ((frontend_stepC env s).ok = false → (frontend_stepC env s).pr.failed = true) ∧
    ((frontend_stepC env s).pr.frontend_build_configured = true →
      s.frontend_build_configured = true ∨ ∃ r, env.frontendBuild = .ok r) ∧
    (∀ e, env.frontendBuild = .error e → s.frontend_build_configured = false →
      (frontend_stepC env s).pr.frontend_build_configured = false ∧
      ((frontend_stepC env s).ok = true → False)) := by
  by_cases hb : s.frontend_build_configured = true
  · refine ⟨?_, ?_, ?_, ?_, ?_, ?_⟩ <;>
      simp only [frontend_stepC, hb, Bool.not_true, Bool.false_eq_true, if_false] <;> simp_all
  · simp only [Bool.not_eq_true] at hb
    cases hbld : env.frontendBuild with
    | error e =>
        refine ⟨?_, ?_, ?_, ?_, ?_, ?_⟩ <;>
          simp only [frontend_stepC, hb, Bool.not_false, if_true, hbld, markFailed] <;> simp_all
    | ok b =>
        refine ⟨?_, ?_, ?_, ?_, ?_, ?_⟩ <;>
          simp only [frontend_stepC, hb, Bool.not_false, if_true, hbld, markFailed] <;> simp_all

/-- Frontend step D characterization. -/
theorem frontend_stepD_chars (env : Env) (s : PR) :
    (frontend_stepD env s).pr.frontend_created = s.frontend_created ∧
    (frontend_stepD env s).pr.frontend_git_attached = s.frontend_git_attached ∧
    (frontend_stepD env s).pr.frontend_build_configured = s.frontend_build_configured ∧
    ((frontend_stepD env s).ok = false → (frontend_stepD env s).pr.failed = true) ∧
    ((frontend_stepD env s).pr.frontend_deploy_triggered = true →
      s.frontend_deploy_triggered = true ∨ ∃ r, env.frontendDeploy = .ok r) ∧
    (∀ e, env.frontendDeploy = .error e → s.frontend_deploy_triggered = false →
      (frontend_stepD env s).pr.frontend_deploy_triggered = false ∧
      ((frontend_stepD env s).ok = true → False)) := by
  by_cases hd : s.frontend_deploy_triggered = true
  · refine ⟨?_, ?_, ?_, ?_, ?_, ?_⟩ <;>
      simp only [frontend_stepD, hd, Bool.not_true, Bool.false_eq_true, if_false] <;> simp_all
  · simp only [Bool.not_eq_true] at hd
    cases hdep : env.frontendDeploy with
    | error e =>
        refine ⟨?_, ?_, ?_, ?_, ?_, ?_⟩ <;>
          simp only [frontend_stepD, hd, Bool.not_false, if_true, hdep, markFailed] <;> simp_all
    | ok d =>
        refine ⟨?_, ?_, ?_, ?_, ?_, ?_⟩ <;>
          simp only [frontend_stepD, hd, Bool.not_false, if_true, hdep, markFailed] <;> simp_all

/-- Flag discipline of `create_frontend_service_task`: each of its four
completion flags turns on only after the corresponding platform call
succeeded, and on a platform error the flag stays off with `failed`
written. -/
theorem create_frontend_flags (env : Env) (s : PR) :
    (s.frontend_created = false →
      ((create_frontend_service_task env s).pr.frontend_created = true →
        ∃ r, env.frontendAppCreate = .ok r ∧ frontendExtractAppId r ≠ none) ∧
      (∀ e, env.frontendAppCreate = .error e →
        (create_frontend_service_task env s).pr.frontend_created = false ∧
        (create_frontend_service_task env s).pr.failed = true)) ∧
    (s.frontend_git_attached = false →
      ((create_frontend_service_task env s).pr.frontend_git_attached = true →
        ∃ r, env.frontendGit = .ok r) ∧
      (∀ e, env.frontendGit = .error e →
        (create_frontend_service_task env s).pr.frontend_git_attached = false ∧
        (create_frontend_service_task env s).pr.failed = true)) ∧
    (s.frontend_build_configured = false →
      ((create_frontend_service_task env s).pr.frontend_build_configured = true →
        ∃ r, env.frontendBuild = .ok r) ∧
      (∀ e, env.frontendBuild = .error e →
        (create_frontend_service_task env s).pr.frontend_build_configured = false ∧
        (create_frontend_service_task env s).pr.failed = true)) ∧
    (s.frontend_deploy_triggered = false →
      ((create_frontend_service_task env s).pr.frontend_deploy_triggered = true →
        ∃ r, env.frontendDeploy = .ok r) ∧
      (∀ e, env.frontendDeploy = .error e →
        (create_frontend_service_task env s).pr.frontend_deploy_triggered = false ∧
        (create_frontend_service_task env s).pr.failed = true)) := by
  obtain ⟨hA1, hA2, hA3, hA4, hA5, hA6, hA7⟩ := frontend_stepA_chars env s
  obtain ⟨hB1, hB2, hB3, hB4, hB5, hB6⟩ := frontend_stepB_chars env (frontend_stepA env s).pr
  obtain ⟨hC1, hC2, hC3, hC4, hC5, hC6⟩ :=
    frontend_stepC_chars env (frontend_stepB env (frontend_stepA env s).pr).pr
  obtain ⟨hD1, hD2, hD3, hD4, hD5, hD6⟩ :=
    frontend_stepD_chars env
      (frontend_stepC env (frontend_stepB env (frontend_stepA env s).pr).pr).pr
  by_cases hpid : optFalsy s.project_id = true
  · have hpr : (create_frontend_service_task env s).pr
        = markFailed s " | cannot create frontend: missing project_id" := by
      simp [create_frontend_service_task, hpid]
    refine ⟨fun h1 => ⟨?_, ?_⟩, fun h2 => ⟨?_, ?_⟩, fun h3 => ⟨?_, ?_⟩, fun h4 => ⟨?_, ?_⟩⟩ <;>
      simp [hpr, markFailed, *]
  · by_cases hAok : (frontend_stepA env s).ok = true
    · by_cases hsan : optFalsy (frontend_stepA env s).pr.frontend_id = true
      · have hpr : (create_frontend_service_task env s).pr
            = markFailed (frontend_stepA env s).pr " | frontend_id missing after create step" := by
          simp [create_frontend_service_task, hpid, hAok, hsan]
        refine ⟨fun h1 => ⟨?_, ?_⟩, fun h2 => ⟨?_, ?_⟩, fun h3 => ⟨?_, ?_⟩, fun h4 => ⟨?_, ?_⟩⟩
        · intro hflag
          rcases hA5 (by simpa [hpr, markFailed] using hflag) with h | h
          · exact absurd h (by simp [h1])
          · exact h
        · intro e he
          exact absurd (hA7 e he (by simp [h1])) (by simp [hAok])
        · intro hflag
          rw [hpr] at hflag
          simp [markFailed, hA1, h2] at hflag
        · intro e he
          refine ⟨?_, by simp [hpr, markFailed]⟩
          rw [hpr]
          simpa [markFailed, hA1] using h2
        · intro hflag
          rw [hpr] at hflag
          simp [markFailed, hA2, h3] at hflag
        · intro e he
          refine ⟨?_, by simp [hpr, markFailed]⟩
          rw [hpr]
          simpa [markFailed, hA2] using h3
        · intro hflag
          rw [hpr] at hflag
          simp [markFailed, hA3, h4] at hflag
        · intro e he
          refine ⟨?_, by simp [hpr, markFailed]⟩
          rw [hpr]
          simpa [markFailed, hA3] using h4
      · by_cases hBok : (frontend_stepB env (frontend_stepA env s).pr).ok = true
        · by_cases hCok :
              (frontend_stepC env (frontend_stepB env (frontend_stepA env s).pr).pr).ok = true
          · by_cases hDok :
                (frontend_stepD env
                  (frontend_stepC env
                    (frontend_stepB env (frontend_stepA env s).pr).pr).pr).ok = true
            · have hpr : (create_frontend_service_task env s).pr
                  = { (frontend_stepD env
                        (frontend_stepC env
                          (frontend_stepB env (frontend_stepA env s).pr).pr).pr).pr with
                      status := "frontend_ready",
                      detail := (frontend_stepD env
                        (frontend_stepC env
                          (frontend_stepB env (frontend_stepA env s).pr).pr).pr).pr.detail
                        ++ " | frontend_created_and_deployed" } := by
                simp [create_frontend_service_task, hpid, hAok, hsan, hBok, hCok, hDok]
              refine ⟨fun h1 => ⟨?_, ?_⟩, fun h2 => ⟨?_, ?_⟩, fun h3 => ⟨?_, ?_⟩,
                fun h4 => ⟨?_, ?_⟩⟩
              · intro hflag
                rw [hpr] at hflag
                simp only [hD1, hC1, hB1] at hflag
                rcases hA5 hflag with h | h
                · exact absurd h (by simp [h1])
                · exact h
              · intro e he
                exact absurd (hA7 e he (by simp [h1])) (by simp [hAok])
              · intro hflag
                rw [hpr] at hflag
                simp only [hD2, hC2] at hflag
                rcases hB5 hflag with h | h
                · rw [hA1, h2] at h
                  exact absurd h (by simp)
                · exact h
              · intro e he
                have := hB6 e he (by rw [hA1]; exact h2)
                exact absurd hBok (by simpa using this.2)
              · intro hflag
                rw [hpr] at hflag
                simp only [hD3] at hflag
                rcases hC5 hflag with h | h
                · rw [hB2, hA2, h3] at h
                  exact absurd h (by simp)
                · exact h
              · intro e he
                have := hC6 e he (by rw [hB2, hA2]; exact h3)
                exact absurd hCok (by simpa using this.2)
              · intro hflag
                rw [hpr] at hflag
                rcases hD5 hflag with h | h
                · rw [hC3, hB3, hA3, h4] at h
                  exact absurd h (by simp)
                · exact h
              · intro e he
                have := hD6 e he (by rw [hC3, hB3, hA3]; exact h4)
                exact absurd hDok (by simpa using this.2)
            · have hpr : (create_frontend_service_task env s).pr
                  = (frontend_stepD env
                      (frontend_stepC env
                        (frontend_stepB env (frontend_stepA env s).pr).pr).pr).pr := by
                simp [create_frontend_service_task, hpid, hAok, hsan, hBok, hCok, hDok]
              refine ⟨fun h1 => ⟨?_, ?_⟩, fun h2 => ⟨?_, ?_⟩, fun h3 => ⟨?_, ?_⟩,
                fun h4 => ⟨?_, ?_⟩⟩
              · intro hflag
                rw [hpr, hD1, hC1, hB1] at hflag
                rcases hA5 hflag with h | h
                · exact absurd h (by simp [h1])
                · exact h
              · intro e he
                exact absurd (hA7 e he (by simp [h1])) (by simp [hAok])
              · intro hflag
                rw [hpr, hD2, hC2] at hflag
                rcases hB5 hflag with h | h
                · rw [hA1, h2] at h
                  exact absurd h (by simp)
                · exact h
              · intro e he
                have := hB6 e he (by rw [hA1]; exact h2)
                exact absurd hBok (by simpa using this.2)
              · intro hflag
                rw [hpr, hD3] at hflag
                rcases hC5 hflag with h | h
                · rw [hB2, hA2, h3] at h
                  exact absurd h (by simp)
                · exact h
              · intro e he
                have := hC6 e he (by rw [hB2, hA2]; exact h3)
                exact absurd hCok (by simpa using this.2)
              · intro hflag
                rw [hpr] at hflag
                rcases hD5 hflag with h | h
                · rw [hC3, hB3, hA3, h4] at h
                  exact absurd h (by simp)
                · exact h
              · intro e he
                have h6 := hD6 e he (by rw [hC3, hB3, hA3]; exact h4)
                refine ⟨by rw [hpr]; exact h6.1, ?_⟩
                rw [hpr]
                exact hD4 (by simpa using hDok)
          · have hpr : (create_frontend_service_task env s).pr
                = (frontend_stepC env
                    (frontend_stepB env (frontend_stepA env s).pr).pr).pr := by
              simp [create_frontend_service_task, hpid, hAok, hsan, hBok, hCok]
            refine ⟨fun h1 => ⟨?_, ?_⟩, fun h2 => ⟨?_, ?_⟩, fun h3 => ⟨?_, ?_⟩,
              fun h4 => ⟨?_, ?_⟩⟩
            · intro hflag
              rw [hpr, hC1, hB1] at hflag
              rcases hA5 hflag with h | h
              · exact absurd h (by simp [h1])
              · exact h
            · intro e he
              exact absurd (hA7 e he (by simp [h1])) (by simp [hAok])
            · intro hflag
              rw [hpr, hC2] at hflag
              rcases hB5 hflag with h | h
              · rw [hA1, h2] at h
                exact absurd h (by simp)
              · exact h
            · intro e he
              have := hB6 e he (by rw [hA1]; exact h2)
              exact absurd hBok (by simpa using this.2)
            · intro hflag
              rw [hpr] at hflag
              rcases hC5 hflag with h | h
              · rw [hB2, hA2, h3] at h
                exact absurd h (by simp)
              · exact h
            · intro e he
              have h6 := hC6 e he (by rw [hB2, hA2]; exact h3)
              refine ⟨by rw [hpr]; exact h6.1, ?_⟩
              rw [hpr]
              exact hC4 (by simpa using hCok)
            · intro hflag
              rw [hpr, hC3, hB3, hA3, h4] at hflag
              exact absurd hflag (by simp)
            · intro e he
              refine ⟨by rw [hpr, hC3, hB3, hA3]; exact h4, ?_⟩
              rw [hpr]
              exact hC4 (by simpa using hCok)
        · have hpr : (create_frontend_service_task env s).pr
              = (frontend_stepB env (frontend_stepA env s).pr).pr := by
            simp [create_frontend_service_task, hpid, hAok, hsan, hBok]
          refine ⟨fun h1 => ⟨?_, ?_⟩, fun h2 => ⟨?_, ?_⟩, fun h3 => ⟨?_, ?_⟩,
            fun h4 => ⟨?_, ?_⟩⟩
          · intro hflag
            rw [hpr, hB1] at hflag
            rcases hA5 hflag with h | h
            · exact absurd h (by simp [h1])
            · exact h
          · intro e he
            exact absurd (hA7 e he (by simp [h1])) (by simp [hAok])
          · intro hflag
            rw [hpr] at hflag
            rcases hB5 hflag with h | h
            · rw [hA1, h2] at h
              exact absurd h (by simp)
            · exact h
          · intro e he
            have h6 := hB6 e he (by rw [hA1]; exact h2)
            refine ⟨by rw [hpr]; exact h6.1, ?_⟩
            rw [hpr]
            exact hB4 (by simpa using hBok)
          · intro hflag
            rw [hpr, hB2, hA2, h3] at hflag
            exact absurd hflag (by simp)
          · intro e he
            refine ⟨by rw [hpr, hB2, hA2]; exact h3, ?_⟩
            rw [hpr]
            exact hB4 (by simpa using hBok)
          · intro hflag
            rw [hpr, hB3, hA3, h4] at hflag
            exact absurd hflag (by simp)
          · intro e he
            refine ⟨by rw [hpr, hB3, hA3]; exact h4, ?_⟩
            rw [hpr]
            exact hB4 (by simpa using hBok)
    · have hpr : (create_frontend_service_task env s).pr = (frontend_stepA env s).pr := by
        simp [create_frontend_service_task, hpid, hAok]
      refine ⟨fun h1 => ⟨?_, ?_⟩, fun h2 => ⟨?_, ?_⟩, fun h3 => ⟨?_, ?_⟩, fun h4 => ⟨?_, ?_⟩⟩
      · intro hflag
        rw [hpr] at hflag
        rcases hA5 hflag with h | h
        · exact absurd h (by simp [h1])
        · exact h
      · intro e he
        have h6 := hA6 e he (by simp [h1])
        refine ⟨by rw [hpr, h6.1]; exact h1, by rw [hpr]; exact h6.2⟩
      · intro hflag
        rw [hpr, hA1, h2] at hflag
        exact absurd hflag (by simp)
      · intro e he
        refine ⟨by rw [hpr, hA1]; exact h2, ?_⟩
        rw [hpr]
        exact hA4 (by simpa using hAok)
      · intro hflag
        rw [hpr, hA2, h3] at hflag
        exact absurd hflag (by simp)
      · intro e he
        refine ⟨by rw [hpr, hA2]; exact h3, ?_⟩
        rw [hpr]
        exact hA4 (by simpa using hAok)
      · intro hflag
        rw [hpr, hA3, h4] at hflag
        exact absurd hflag (by simp)
      · intro e he
        refine ⟨by rw [hpr, hA3]; exact h4, ?_⟩
        rw [hpr]
        exact hA4 (by simpa using hAok)

/-- Flag discipline of `create_postgres_task`: `db_created` turns on only
after the create-postgres call and the discovery query both succeeded,
`backend_env_configured` only after the save-environment call succeeded,
and on a platform error the respective flag stays off with `failed`
written. -/
theorem create_postgres_flags (env : Env) (s : PR) :
    (s.db_created = false →
      ((create_postgres_task env s).pr.db_created = true →
        ∃ r, env.postgresCreate = .ok r ∧ ∃ ps, env.projectAll = .ok ps) ∧
      (∀ e, env.postgresCreate = .error e →
        (create_postgres_task env s).pr.db_created = false ∧
        (create_postgres_task env s).pr.failed = true)) ∧
    (s.backend_env_configured = false →
      ((create_postgres_task env s).pr.backend_env_configured = true →
        ∃ r, env.saveEnv = .ok r) ∧
      (∀ e, env.saveEnv = .error e →
        (create_postgres_task env s).pr.backend_env_configured = false ∧
        (create_postgres_task env s).pr.failed = true)) := by
  by_cases hpid : optFalsy s.project_id = true
  · have hpr : (create_postgres_task env s).pr
        = markFailed s " | cannot create DB: missing project_id" := by
      simp [create_postgres_task, hpid]
    refine ⟨fun h1 => ⟨?_, ?_⟩, fun h2 => ⟨?_, ?_⟩⟩ <;> simp [hpr, markFailed, *]
  · by_cases hbid : optFalsy s.backend_id = true
    · have hpr : (create_postgres_task env s).pr
          = markFailed s " | cannot set environment: missing backend application id" := by
        simp [create_postgres_task, hpid, hbid]
      refine ⟨fun h1 => ⟨?_, ?_⟩, fun h2 => ⟨?_, ?_⟩⟩ <;> simp [hpr, markFailed, *]
    · by_cases hskip : (s.db_created && strTruthy s.db_id && strTruthy s.db_app_name &&
          strTruthy s.db_name && strTruthy s.db_user && strTruthy s.db_password) = true
      · have hskip2 := hskip
        simp only [Bool.and_eq_true] at hskip2
        have hdb : s.db_created = true := hskip2.1.1.1.1.1
        refine ⟨fun h1 => absurd hdb (by simp [h1]), fun h2 => ?_⟩
        cases hse : env.saveEnv with
        | ok r =>
            have hpr : (create_postgres_task env s).pr
                = { s with
                    backend_env_configured := true,
                    status := "backend_env_configured",
                    detail := s.detail ++ " | backend_env_set:" ++ pyRepr r } := by
              simp [create_postgres_task, hpid, hbid, hskip, h2, hse]
            constructor
            · intro _
              exact ⟨r, rfl⟩
            · intro e he
              exact absurd he (by simp)
        | error e =>
            have hpr : (create_postgres_task env s).pr
                = markFailed s (" | application.saveEnvironment failed: " ++ e.msg) := by
              simp [create_postgres_task, hpid, hbid, hskip, h2, hse]
            constructor
            · intro hflag
              rw [hpr] at hflag
              simp [markFailed, h2] at hflag
            · intro e2 he2
              rw [hpr]
              simp [markFailed, h2]
      · cases hpc : env.postgresCreate with
        | error e0 =>
            have hpr : (create_postgres_task env s).pr
                = markFailed s (" | postgres.create error: " ++ e0.msg) := by
              simp [create_postgres_task, hpid, hbid, hskip, hpc]
            refine ⟨fun h1 => ⟨?_, ?_⟩, fun h2 => ⟨?_, ?_⟩⟩
            · intro hflag
              rw [hpr] at hflag
              simp [markFailed, h1] at hflag
            · intro e he
              rw [hpr]
              simp [markFailed, h1]
            · intro hflag
              rw [hpr] at hflag
              simp [markFailed, h2] at hflag
            · intro e he
              rw [hpr]
              simp [markFailed, h2]
        | ok r0 =>
            cases hpa : env.projectAll with
            | error e0 =>
                have hpr : (create_postgres_task env s).pr
                    = markFailed
                        { s with detail := s.detail ++ " | postgres.create_resp:" ++ pyRepr r0 }
                        (" | project.all error: " ++ e0.msg) := by
                  simp [create_postgres_task, hpid, hbid, hskip, hpc, hpa]
                refine ⟨fun h1 => ⟨?_, ?_⟩, fun h2 => ⟨?_, ?_⟩⟩
                · intro hflag
                  rw [hpr] at hflag
                  simp [markFailed, h1] at hflag
                · intro e he
                  exact absurd he (by simp)
                · intro hflag
                  rw [hpr] at hflag
                  simp [markFailed, h2] at hflag
                · intro e he
                  rw [hpr]
                  simp [markFailed, h2]
            | ok ps =>
                cases hfetch : fetch_postgres_entry_for_project ps (s.project_id.getD "") with
                | none =>
                    have hpr : (create_postgres_task env s).pr
                        = markFailed
                            { s with detail := s.detail ++ " | postgres.create_resp:" ++ pyRepr r0 }
                            " | project.all did not show postgres entry after creation" := by
                      simp [create_postgres_task, hpid, hbid, hskip, hpc, hpa, hfetch]
                    refine ⟨fun h1 => ⟨?_, ?_⟩, fun h2 => ⟨?_, ?_⟩⟩
                    · intro hflag
                      rw [hpr] at hflag
                      simp [markFailed, h1] at hflag
                    · intro e he
                      exact absurd he (by simp)
                    · intro hflag
                      rw [hpr] at hflag
                      simp [markFailed, h2] at hflag
                    · intro e he
                      rw [hpr]
                      simp [markFailed, h2]
                | some entry =>
                    by_cases hbe : s.backend_env_configured = true
                    · have hpr : (create_postgres_task env s).pr
                          = populate_db_fields_from_postgres_entry
                              { s with detail := s.detail ++ " | postgres.create_resp:" ++ pyRepr r0 }
                              entry := by
                        simp [create_postgres_task, hpid, hbid, hskip, hpc, hpa, hfetch,
                          populate_db_fields_from_postgres_entry, hbe]
                      refine ⟨fun h1 => ⟨?_, ?_⟩, fun h2 => absurd hbe (by simp [h2])⟩
                      · intro _
                        exact ⟨r0, rfl, ps, rfl⟩
                      · intro e he
                        exact absurd he (by simp)
                    · simp only [Bool.not_eq_true] at hbe
                      cases hse : env.saveEnv with
                      | ok r =>
                          have hpr : (create_postgres_task env s).pr
                              = { (populate_db_fields_from_postgres_entry
                                  { s with
                                    detail := s.detail ++ " | postgres.create_resp:" ++ pyRepr r0 }
                                  entry) with
                                  backend_env_configured := true,
                                  status := "backend_env_configured",
                                  detail := (populate_db_fields_from_postgres_entry
                                    { s with
                                      detail := s.detail ++ " | postgres.create_resp:" ++ pyRepr r0 }
                                    entry).detail ++ " | backend_env_set:" ++ pyRepr r } := by
                            simp [create_postgres_task, hpid, hbid, hskip, hpc, hpa, hfetch,
                              populate_db_fields_from_postgres_entry, hbe, hse]
                          refine ⟨fun h1 => ⟨?_, ?_⟩, fun h2 => ⟨?_, ?_⟩⟩
                          · intro _
                            exact ⟨r0, rfl, ps, rfl⟩
                          · intro e he
                            exact absurd he (by simp)
                          · intro _
                            exact ⟨r, rfl⟩
                          · intro e he
                            exact absurd he (by simp)
                      | error e =>
                          have hpr : (create_postgres_task env s).pr
                              = markFailed
                                  (populate_db_fields_from_postgres_entry
                                    { s with
                                      detail := s.detail ++ " | postgres.create_resp:" ++ pyRepr r0 }
                                    entry)
                                  (" | application.saveEnvironment failed: " ++ e.msg) := by
                            simp [create_postgres_task, hpid, hbid, hskip, hpc, hpa, hfetch,
                              populate_db_fields_from_postgres_entry, hbe, hse]
                          refine ⟨fun h1 => ⟨?_, ?_⟩, fun h2 => ⟨?_, ?_⟩⟩
                          · intro _
                            exact ⟨r0, rfl, ps, rfl⟩
                          · intro e2 he2
                            exact absurd he2 (by simp)
                          · intro hflag
                            rw [hpr] at hflag
                            simp [markFailed, populate_db_fields_from_postgres_entry, hbe] at hflag
                          · intro e2 he2
                            rw [hpr]
                            simp [markFailed, populate_db_fields_from_postgres_entry, hbe]

/-- Backend-domain phase flag discipline: when the skip guard is off,
`domains_configured` can only turn on after a successful backend
domain-create response, and on an error it stays off with `failed`
written (whatever the rollback outcome). -/
theorem domains_backend_phase_flags (env : Env) (p : PR) (fh bh : String)
    (cfn : Bool) (fid : Option String) (calls : List RCall)
    (h0 : p.domains_configured = false)
    (hg : (strTruthy p.backend_domain && p.backend_domain == some bh) = false) :
    ((domains_backend_phase env p fh bh cfn fid calls).pr.domains_configured = true →
      ∃ rb, env.backendDomainCreate = .ok rb) ∧
    (∀ e, env.backendDomainCreate = .error e →
      (domains_backend_phase env p fh bh cfn fid calls).pr.domains_configured = false ∧
      (domains_backend_phase env p fh bh cfn fid calls).pr.failed = true) := by
  cases hb : env.backendDomainCreate with
  | ok resp =>
      constructor
      · intro _
        exact ⟨resp, rfl⟩
      · intro e he
        exact absurd he (by simp)
  | error e =>
      constructor
      · intro hflag
        exfalso
        revert hflag
        simp only [domains_backend_phase, hg, Bool.false_eq_true, if_false, hb, markFailed]
        by_cases g2 : (cfn && strTruthy fid) = true
        · simp only [g2, if_true]
          cases hd : env.domainDelete <;> simp [h0]
        · simp only [g2, Bool.false_eq_true, if_false]
          simp [h0]
      · intro e2 he2
        simp only [domains_backend_phase, hg, Bool.false_eq_true, if_false, hb, markFailed]
        by_cases g2 : (cfn && strTruthy fid) = true
        · simp only [g2, if_true]
          cases hd : env.domainDelete <;> simp [h0]
        · simp only [g2, Bool.false_eq_true, if_false]
          simp [h0]

/-- Flag discipline of `create_domains_task` on a row with no domain host
recorded yet: `domains_configured` turns on only after both domain-create
calls returned successfully, and an error from either call leaves the
flag off with `failed` written. -/
theorem create_domains_flags (env : Env) (s : PR)
    (h0 : s.domains_configured = false)
    (hfd : strTruthy s.frontend_domain = false)
    (hbd : strTruthy s.backend_domain = false) :
    ((create_domains_task env s).pr.domains_configured = true →
      (∃ rf, env.frontendDomainCreate = .ok rf) ∧ ∃ rb, env.backendDomainCreate = .ok rb) ∧
    (∀ e, env.frontendDomainCreate = .error e →
      (create_domains_task env s).pr.domains_configured = false ∧
      (create_domains_task env s).pr.failed = true) ∧
    (∀ e, env.backendDomainCreate = .error e →
      (create_domains_task env s).pr.domains_configured = false ∧
      (create_domains_task env s).pr.failed = true) := by
  have hg1 : ¬(s.domains_configured && strTruthy s.frontend_domain &&
      strTruthy s.backend_domain) = true := by
    simp [h0]
  rw [create_domains_task, if_neg hg1]
  by_cases g2 : (pyStripWs s.subdomain).isEmpty = true
  · rw [if_pos g2]
    refine ⟨?_, ?_, ?_⟩
    · intro hflag
      simp [markFailed, h0] at hflag
    · intro e he
      simp [markFailed, h0]
    · intro e he
      simp [markFailed, h0]
  · rw [if_neg g2]
    by_cases g3 : (sanitize_subdomain (pyStripWs s.subdomain)).isEmpty = true
    · rw [if_pos g3]
      refine ⟨?_, ?_, ?_⟩
      · intro hflag
        simp [markFailed, h0] at hflag
      · intro e he
        simp [markFailed, h0]
      · intro e he
        simp [markFailed, h0]
    · rw [if_neg g3]
      by_cases g4 : optFalsy env.baseDomain = true
      · rw [if_pos g4]
        refine ⟨?_, ?_, ?_⟩
        · intro hflag
          simp [markFailed, h0] at hflag
        · intro e he
          simp [markFailed, h0]
        · intro e he
          simp [markFailed, h0]
      · rw [if_neg g4]
        by_cases g5 : optFalsy s.frontend_id = true
        · rw [if_pos g5]
          refine ⟨?_, ?_, ?_⟩
          · intro hflag
            simp [markFailed, h0] at hflag
          · intro e he
            simp [markFailed, h0]
          · intro e he
            simp [markFailed, h0]
        · rw [if_neg g5]
          by_cases g6 : optFalsy s.backend_id = true
          · rw [if_pos g6]
            refine ⟨?_, ?_, ?_⟩
            · intro hflag
              simp [markFailed, h0] at hflag
            · intro e he
              simp [markFailed, h0]
            · intro e he
              simp [markFailed, h0]
          · rw [if_neg g6]
            have hg7 : ¬(strTruthy s.frontend_domain &&
                s.frontend_domain ==
                  some (sanitize_subdomain (pyStripWs s.subdomain) ++ "." ++
                    env.baseDomain.getD "")) = true := by
              simp [hfd]
            rw [if_neg hg7]
            cases hfc : env.frontendDomainCreate with
            | error e0 =>
                refine ⟨?_, ?_, ?_⟩
                · intro hflag
                  simp [markFailed, h0] at hflag
                · intro e he
                  simp [markFailed, h0]
                · intro e he
                  simp [markFailed, h0]
            | ok resp =>
                dsimp only
                refine ⟨?_, ?_, ?_⟩
                · intro hflag
                  refine ⟨⟨resp, rfl⟩, ?_⟩
                  exact (domains_backend_phase_flags env _ _ _ true (domainIdOf resp)
                    [.domainCreateFrontend] (by simp [h0]) (by simp [hbd])).1 hflag
                · intro e he
                  exact absurd he (by simp)
                · intro e he
                  exact (domains_backend_phase_flags env _ _ _ true (domainIdOf resp)
                    [.domainCreateFrontend] (by simp [h0]) (by simp [hbd])).2 e he

/-- C10 (confirmed): for every step's completion flag — `project_created`,
`backend_created`, `backend_git_attached`, `backend_build_configured`,
`db_created`, `backend_env_configured`, `postgres_deploy_triggered`,
`backend_deploy_triggered`, `frontend_created`, `frontend_git_attached`,
`frontend_build_configured`, `frontend_deploy_triggered` and
`domains_configured` — the flag is persisted as true only after the
corresponding platform call has returned and a successful response was
observed (including, where required, an extractable id), and on a
platform error the flag stays false while `failed` is set to true. -/
theorem c10_flags_only_after_confirmed_success (env : Env) (s : PR)
    (hp : s.project_created = false) (hbc : s.backend_created = false)
    (hg : s.backend_git_attached = false) (hbb : s.backend_build_configured = false)
    (hpd : s.postgres_deploy_triggered = false) (hbd : s.backend_deploy_triggered = false)
    (hfcr : s.frontend_created = false) (hfg : s.frontend_git_attached = false)
    (hfb : s.frontend_build_configured = false) (hfd : s.frontend_deploy_triggered = false)
    (hdbc : s.db_created = false) (hbe : s.backend_env_configured = false)
    (hdc : s.domains_configured = false)
    (hfdh : strTruthy s.frontend_domain = false)
    (hbdh : strTruthy s.backend_domain = false) :
    (((create_project_task env s).pr.project_created = true →
        ∃ r, env.projectCreate = .ok r ∧ extract_id_from_resp r ≠ none) ∧
      (∀ e, env.projectCreate = .error e →
        (create_project_task env s).pr.project_created = false ∧
        (create_project_task env s).pr.failed = true)) ∧
    (((create_backend_service_task env s).pr.backend_created = true →
        ∃ r, env.backendAppCreate = .ok r ∧ backendExtractAppId r ≠ none) ∧
      (∀ e, env.backendAppCreate = .error e →
        (create_backend_service_task env s).pr.backend_created = false ∧
        (create_backend_service_task env s).pr.failed = true)) ∧
    (((create_backend_service_task env s).pr.backend_git_attached = true →
        ∃ r, env.backendGit = .ok r) ∧
      (∀ e, env.backendGit = .error e →
        (create_backend_service_task env s).pr.backend_git_attached = false ∧
        (create_backend_service_task env s).pr.failed = true)) ∧
    (((create_backend_service_task env s).pr.backend_build_configured = true →
        ∃ r, env.backendBuild = .ok r) ∧
      (∀ e, env.backendBuild = .error e →
        (create_backend_service_task env s).pr.backend_build_configured = false ∧
        (create_backend_service_task env s).pr.failed = true)) ∧
    (((deploy_db_then_app_quick env s).pr.postgres_deploy_triggered = true →
        ∃ r, env.postgresDeploy = .ok r) ∧
      (∀ e, env.postgresDeploy = .error e →
        (deploy_db_then_app_quick env s).pr.postgres_deploy_triggered = false ∧
        (deploy_db_then_app_quick env s).pr.failed = true)) ∧
    (((deploy_db_then_app_quick env s).pr.backend_deploy_triggered = true →
        ∃ r, env.backendDeploy = .ok r) ∧
      (∀ e, env.backendDeploy = .error e →
        (deploy_db_then_app_quick env s).pr.backend_deploy_triggered = false ∧
        (deploy_db_then_app_quick env s).pr.failed = true)) ∧
    (((create_frontend_service_task env s).pr.frontend_created = true →
        ∃ r, env.frontendAppCreate = .ok r ∧ frontendExtractAppId r ≠ none) ∧
      (∀ e, env.frontendAppCreate = .error e →
        (create_frontend_service_task env s).pr.frontend_created = false ∧
        (create_frontend_service_task env s).pr.failed = true)) ∧
    (((create_frontend_service_task env s).pr.frontend_git_attached = true →
        ∃ r, env.frontendGit = .ok r) ∧
      (∀ e, env.frontendGit = .error e →
        (create_frontend_service_task env s).pr.frontend_git_attached = false ∧
        (create_frontend_service_task env s).pr.failed = true)) ∧
    (((create_frontend_service_task env s).pr.frontend_build_configured = true →
        ∃ r, env.frontendBuild = .ok r) ∧
      (∀ e, env.frontendBuild = .error e →
        (create_frontend_service_task env s).pr.frontend_build_configured = false ∧
        (create_frontend_service_task env s).pr.failed = true)) ∧
    (((create_frontend_service_task env s).pr.frontend_deploy_triggered = true →
        ∃ r, env.frontendDeploy = .ok r) ∧
      (∀ e, env.frontendDeploy = .error e →
        (create_frontend_service_task env s).pr.frontend_deploy_triggered = false ∧
        (create_frontend_service_task env s).pr.failed = true)) ∧
    (((create_postgres_task env s).pr.db_created = true →
        ∃ r, env.postgresCreate = .ok r ∧ ∃ ps, env.projectAll = .ok ps) ∧
      (∀ e, env.postgresCreate = .error e →
        (create_postgres_task env s).pr.db_created = false ∧
        (create_postgres_task env s).pr.failed = true)) ∧
    (((create_postgres_task env s).pr.backend_env_configured = true →
        ∃ r, env.saveEnv = .ok r) ∧
      (∀ e, env.saveEnv = .error e →
        (create_postgres_task env s).pr.backend_env_configured = false ∧
        (create_postgres_task env s).pr.failed = true)) ∧
    (((create_domains_task env s).pr.domains_configured = true →
        (∃ rf, env.frontendDomainCreate = .ok rf) ∧ ∃ rb, env.backendDomainCreate = .ok rb) ∧
      (∀ e, env.frontendDomainCreate = .error e →
        (create_domains_task env s).pr.domains_configured = false ∧
        (create_domains_task env s).pr.failed = true) ∧
      (∀ e, env.backendDomainCreate = .error e →
        (create_domains_task env s).pr.domains_configured = false ∧
        (create_domains_task env s).pr.failed = true)) :=
  ⟨create_project_flags env s hp,
   (create_backend_flags env s).1 hbc,
   (create_backend_flags env s).2.1 hg,
   (create_backend_flags env s).2.2 hbb,
   (deploy_flags env s).1 hpd,
   (deploy_flags env s).2 hbd,
   (create_frontend_flags env s).1 hfcr,
   (create_frontend_flags env s).2.1 hfg,
   (create_frontend_flags env s).2.2.1 hfb,
   (create_frontend_flags env s).2.2.2 hfd,
   (create_postgres_flags env s).1 hdbc,
   (create_postgres_flags env s).2 hbe,
   create_domains_flags env s hdc hfdh hbdh⟩

/-- C10 witness: on a fresh row in the all-success environment, the
project flag having turned on yields the successful call with an
extractable id. -/
theorem c10_flags_only_after_confirmed_success_witness :
    ∃ r, envAllOk.projectCreate = .ok r ∧ extract_id_from_resp r ≠ none :=
  (c10_flags_only_after_confirmed_success envAllOk { client_name := "Acme" }
    rfl rfl rfl rfl rfl rfl rfl rfl rfl rfl rfl rfl rfl rfl rfl).1.1 (by decide)

end Provisioner
